import Mathlib

/-!
Shallow embedding of the FishGame repository (browser fishing game) in Lean 4,
with theorems settling the spec claims C1..C10.

Modelling conventions:
* JS numbers are modelled as exact reals (`ℝ`); all arithmetic is exact.
* A nullable JS argument is an `Option` value; `none` models `null`/`undefined`.
* A JS function that can throw a `TypeError` by dereferencing a null argument
  is modelled with an `Option`/`Except` result; `none` / `.error` models the
  thrown exception.
* `Math.random()` samples are passed in explicitly as oracle arguments
  (named `u`, `u1`, ...); `Date.now()` is passed in as a `now` argument.
* JS `x || d` default-argument idiom treats `0` (and `""`) as falsy; this is
  reproduced by `jsOr` / `jsOrStr` below.
-/

noncomputable section

namespace FishGame

/-- A 2-D point / vector `{x, y}` as used throughout the game. -/
structure Point where
  x : ℝ
  y : ℝ
deriving DecidableEq

/-- A circle `{x, y, radius}` as passed to the collision helpers. -/
structure Circle where
  x : ℝ
  y : ℝ
  radius : ℝ

/-- A rectangle `{x, y, width, height}` as passed to the collision helpers. -/
structure Rect where
  x : ℝ
  y : ℝ
  width : ℝ
  height : ℝ
deriving DecidableEq

/-- JS `Math.round`: round half up, `Math.round(x) = floor(x + 0.5)`. -/
def jsRound (x : ℝ) : ℤ := ⌊x + 1 / 2⌋

/-- JS default idiom `v || d` for numbers: `null`/`undefined` and `0` fall
through to the default. -/
def jsOr (v : Option ℝ) (d : ℝ) : ℝ :=
  match v with
  | none => d
  | some x => if x = 0 then d else x

/-- JS default idiom `v || d` for strings: `null`/`undefined` and `""` fall
through to the default. -/
def jsOrStr (v : Option String) (d : String) : String :=
  match v with
  | none => d
  | some s => if s = "" then d else s

namespace MathUtils

/-- `MathUtils.distance(point1, point2)`: euclidean distance, `0` on a null
argument (source guard `if (!point1 || !point2) return 0`). -/
def distance (point1 point2 : Option Point) : ℝ :=
  match point1, point2 with
  | some p1, some p2 =>
      Real.sqrt ((p2.x - p1.x) * (p2.x - p1.x) + (p2.y - p1.y) * (p2.y - p1.y))
  | _, _ => 0

/-- `MathUtils.distanceSquared(point1, point2)`: squared distance without the
square root, `0` on a null argument. -/
def distanceSquared (point1 point2 : Option Point) : ℝ :=
  match point1, point2 with
  | some p1, some p2 =>
      (p2.x - p1.x) * (p2.x - p1.x) + (p2.y - p1.y) * (p2.y - p1.y)
  | _, _ => 0

/-- `MathUtils.magnitude(vector)`: vector length, `0` on null. -/
def magnitude (vector : Option Point) : ℝ :=
  match vector with
  | some v => Real.sqrt (v.x * v.x + v.y * v.y)
  | none => 0

/-- `MathUtils.normalize(vector)`: unit vector; `{0,0}` on null or on the zero
vector. -/
def normalize (vector : Option Point) : Point :=
  match vector with
  | none => ⟨0, 0⟩
  | some v =>
      let mag := magnitude (some v)
      if mag = 0 then ⟨0, 0⟩ else ⟨v.x / mag, v.y / mag⟩

/-- `MathUtils.addVectors(v1, v2)`: componentwise sum, `{0,0}` on null. -/
def addVectors (vector1 vector2 : Option Point) : Point :=
  match vector1, vector2 with
  | some v1, some v2 => ⟨v1.x + v2.x, v1.y + v2.y⟩
  | _, _ => ⟨0, 0⟩

/-- `MathUtils.subtractVectors(v1, v2)`: componentwise difference, `{0,0}` on
null. -/
def subtractVectors (vector1 vector2 : Option Point) : Point :=
  match vector1, vector2 with
  | some v1, some v2 => ⟨v1.x - v2.x, v1.y - v2.y⟩
  | _, _ => ⟨0, 0⟩

/-- `MathUtils.multiplyVector(vector, scalar)`: scalar multiple, `{0,0}` on
null. -/
def multiplyVector (vector : Option Point) (scalar : ℝ) : Point :=
  match vector with
  | some v => ⟨v.x * scalar, v.y * scalar⟩
  | none => ⟨0, 0⟩

/-- JS `Math.atan2(y, x)`, modelled as the complex argument of `x + iy`
(both have range `(-π, π]` and the same quadrant conventions). -/
def atan2 (y x : ℝ) : ℝ := Complex.arg ⟨x, y⟩

/-- `MathUtils.angleBetween(point1, point2)`: `atan2(dy, dx)`, `0` on null. -/
def angleBetween (point1 point2 : Option Point) : ℝ :=
  match point1, point2 with
  | some p1, some p2 => atan2 (p2.y - p1.y) (p2.x - p1.x)
  | _, _ => 0

/-- First loop of `MathUtils.normalizeAngle`:
`while (angle < 0) angle += 2 * Math.PI`. -/
def angleLoopUp (angle : ℝ) : ℝ :=
  if h : angle < 0 then angleLoopUp (angle + 2 * Real.pi) else angle
termination_by (⌈-angle / (2 * Real.pi)⌉).toNat
decreasing_by
  have hpi : (0:ℝ) < 2 * Real.pi := by positivity
  have hrw : -(angle + 2 * Real.pi) / (2 * Real.pi)
      = -angle / (2 * Real.pi) - 1 := by
    field_simp
    ring
  have hceil : ⌈-(angle + 2 * Real.pi) / (2 * Real.pi)⌉
      = ⌈-angle / (2 * Real.pi)⌉ - 1 := by
    rw [hrw]
    exact_mod_cast Int.ceil_sub_int (-angle / (2 * Real.pi)) 1
  have hpos : 0 < ⌈-angle / (2 * Real.pi)⌉ := by
    rw [Int.ceil_pos]
    exact div_pos (by linarith) hpi
  rw [hceil]
  omega

/-- Second loop of `MathUtils.normalizeAngle`:
`while (angle >= 2 * Math.PI) angle -= 2 * Math.PI`. -/
def angleLoopDown (angle : ℝ) : ℝ :=
  if h : 2 * Real.pi ≤ angle then angleLoopDown (angle - 2 * Real.pi) else angle
termination_by (⌊angle / (2 * Real.pi)⌋).toNat
decreasing_by
  have hpi : (0:ℝ) < 2 * Real.pi := by positivity
  have hrw : (angle - 2 * Real.pi) / (2 * Real.pi)
      = angle / (2 * Real.pi) - 1 := by
    field_simp
  have hfloor : ⌊(angle - 2 * Real.pi) / (2 * Real.pi)⌋
      = ⌊angle / (2 * Real.pi)⌋ - 1 := by
    rw [hrw]
    exact_mod_cast Int.floor_sub_int (angle / (2 * Real.pi)) 1
  have hone : (1:ℤ) ≤ ⌊angle / (2 * Real.pi)⌋ := by
    rw [Int.le_floor]
    push_cast
    rw [le_div_iff₀ hpi]
    linarith
  rw [hfloor]
  omega

/-- `MathUtils.normalizeAngle(angle)`: shift by `2π` until the result lies in
`[0, 2π)`. -/
def normalizeAngle (angle : ℝ) : ℝ := angleLoopDown (angleLoopUp angle)

/-- `MathUtils.circleCollision(c1, c2)`: inclusive comparison of the centre
distance with the radius sum; `false` on null. -/
def circleCollision (circle1 circle2 : Option Circle) : Prop :=
  match circle1, circle2 with
  | some c1, some c2 =>
      distance (some ⟨c1.x, c1.y⟩) (some ⟨c2.x, c2.y⟩) ≤ c1.radius + c2.radius
  | _, _ => False

/-- `MathUtils.fastCircleCollision(c1, c2)`: squared-distance variant;
`false` on null. -/
def fastCircleCollision (circle1 circle2 : Option Circle) : Prop :=
  match circle1, circle2 with
  | some c1, some c2 =>
      distanceSquared (some ⟨c1.x, c1.y⟩) (some ⟨c2.x, c2.y⟩)
        ≤ (c1.radius + c2.radius) * (c1.radius + c2.radius)
  | _, _ => False

/-- `MathUtils.rectangleCollision(r1, r2)`: strict AABB overlap; `false` on
null. -/
def rectangleCollision (rect1 rect2 : Option Rect) : Prop :=
  match rect1, rect2 with
  | some r1, some r2 =>
      r1.x < r2.x + r2.width ∧ r1.x + r1.width > r2.x ∧
      r1.y < r2.y + r2.height ∧ r1.y + r1.height > r2.y
  | _, _ => False

/-- `MathUtils.pointInCircle(point, circle)`: inclusive membership; `false`
on null. -/
def pointInCircle (point : Option Point) (circle : Option Circle) : Prop :=
  match point, circle with
  | some p, some c => distance (some p) (some ⟨c.x, c.y⟩) ≤ c.radius
  | _, _ => False

/-- `MathUtils.pointInRectangle(point, rect)`: inclusive membership; `false`
on null. -/
def pointInRectangle (point : Option Point) (rect : Option Rect) : Prop :=
  match point, rect with
  | some p, some r =>
      p.x ≥ r.x ∧ p.x ≤ r.x + r.width ∧ p.y ≥ r.y ∧ p.y ≤ r.y + r.height
  | _, _ => False

/-- `MathUtils.lerp(start, end, t)`. -/
def lerp (start e t : ℝ) : ℝ := start + t * (e - start)

/-- `MathUtils.clamp(value, min, max) = Math.min(Math.max(value, min), max)`. -/
def clamp (value minV maxV : ℝ) : ℝ := min (max value minV) maxV

/-- `MathUtils.randomRange(min, max)`; the `Math.random()` sample is the
oracle argument `u ∈ [0, 1)`. -/
def randomRange (minV maxV u : ℝ) : ℝ := u * (maxV - minV) + minV

/-- `MathUtils.randomPointInCircle(center, radius)`: no null guard in the
source; dereferencing a null `center` throws, modelled by `none`.
Oracles `u1 u2` are the two `Math.random()` samples. -/
def randomPointInCircle (center : Option Point) (radius u1 u2 : ℝ) :
    Option Point :=
  match center with
  | none => none
  | some c =>
      let angle := u1 * (2 * Real.pi)
      let dist := Real.sqrt u2 * radius
      some ⟨c.x + Real.cos angle * dist, c.y + Real.sin angle * dist⟩

/-- `MathUtils.velocityFromAngle(angle, speed)`. -/
def velocityFromAngle (angle speed : ℝ) : Point :=
  ⟨Real.cos angle * speed, Real.sin angle * speed⟩

/-- `MathUtils.applyGravity(velocity, gravity, deltaTime)`: no null guard in
the source; a null `velocity` throws, modelled by `none`. -/
def applyGravity (velocity : Option Point) (gravity deltaTime : ℝ) :
    Option Point :=
  match velocity with
  | none => none
  | some v => some ⟨v.x, v.y + gravity * deltaTime⟩

/-- `MathUtils.applyFriction(velocity, friction)`: no null guard in the
source; a null `velocity` throws, modelled by `none`. -/
def applyFriction (velocity : Option Point) (friction : ℝ) : Option Point :=
  match velocity with
  | none => none
  | some v => some ⟨v.x * friction, v.y * friction⟩

/-- `MathUtils.isInBounds(point, bounds)`: delegates to `pointInRectangle`. -/
def isInBounds (point : Option Point) (bounds : Option Rect) : Prop :=
  pointInRectangle point bounds

end MathUtils

/-- The movement bounds rectangle of a fish (`{left, right, top, bottom}`). -/
structure FishBounds where
  left : ℝ
  right : ℝ
  top : ℝ
  bottom : ℝ
deriving DecidableEq

/-- A threat registered with `addThreat` (`{x, y, radius}`). -/
structure Threat where
  x : ℝ
  y : ℝ
  radius : ℝ
deriving DecidableEq

/-- The mutable state of a `Fish` entity. Sprite handles, event listeners and
render-only fields are not modelled; `hasAI` models the nullability of
`this.ai`, and `schoolmates` holds identities of schoolmates. -/
structure Fish where
  x : ℝ
  y : ℝ
  width : ℝ
  height : ℝ
  scale : ℝ
  rotation : ℝ
  spriteLoaded : Bool
  currentFrame : ℕ
  animationSpeed : ℝ
  lastFrameTime : ℝ
  animationPaused : Bool
  speed : ℝ
  velocity : Point
  direction : ℝ
  bounds : FishBounds
  isActive : Bool
  isCaught : Bool
  fishType : String
  behavior : String
  rarity : ℝ
  scoreValue : ℤ
  destroyed : Bool
  touchRadius : ℝ
  schoolmates : List ℕ
  threats : List Threat
  hasAI : Bool
  behaviorUpdateInterval : ℝ
  lastBehaviorUpdate : ℝ
deriving DecidableEq

/-- Constructor options of `Fish` (each `options.f || default` in the source). -/
structure FishOptions where
  x : Option ℝ := none
  y : Option ℝ := none
  width : Option ℝ := none
  height : Option ℝ := none
  scale : Option ℝ := none
  rotation : Option ℝ := none
  animationSpeed : Option ℝ := none
  speed : Option ℝ := none
  bounds : Option FishBounds := none
  fishType : Option String := none
  behavior : Option String := none

namespace Fish

/-- `Fish._getRarityValue(fishType)`: the rarity map with fallback `1`. -/
def getRarityValue (fishType : String) : ℝ :=
  match fishType with
  | "common" => 1
  | "uncommon" => 2
  | "rare" => 5
  | "epic" => 10
  | "legendary" => 25
  | _ => 1

/-- `Fish._calculateBaseScore()`:
`Math.round(10 * rarity * ((width + height) / 64))`. -/
def calculateBaseScore (width height : ℝ) (fishType : String) : ℤ :=
  jsRound (10 * getRarityValue fishType * ((width + height) / 64))

/-- `Fish._applyBehaviorModifications()`. -/
def applyBehaviorModifications (f : Fish) : Fish :=
  match f.behavior with
  | "aggressive" =>
      { f with speed := f.speed * 1.5, animationSpeed := f.animationSpeed * 0.8 }
  | "lazy" =>
      { f with speed := f.speed * 0.6, animationSpeed := f.animationSpeed * 1.3 }
  | "erratic" => { f with behaviorUpdateInterval := 50 }
  | _ => f

/-- `Fish._initializeMovement()`; `u` is the `Math.random()` sample behind
`MathUtils.randomRange(0, 2 * Math.PI)`. -/
def initializeMovement (f : Fish) (u : ℝ) : Fish :=
  let direction := MathUtils.randomRange 0 (2 * Real.pi) u
  applyBehaviorModifications
    { f with direction,
             velocity := MathUtils.velocityFromAngle direction f.speed }

/-- The `Fish` constructor; `u1 u2` are the `Math.random()` samples of the
initial velocity components and `u3` the sample used by
`_initializeMovement`. -/
def init (o : FishOptions) (u1 u2 u3 : ℝ) : Fish :=
  let width := jsOr o.width 32
  let height := jsOr o.height 32
  let speed := jsOr o.speed 2
  let fishType := jsOrStr o.fishType "common"
  let behavior := jsOrStr o.behavior "normal"
  let vel : Point := ⟨MathUtils.randomRange (-speed) speed u1,
                      MathUtils.randomRange (-speed) speed u2⟩
  initializeMovement
    { x := jsOr o.x 0
      y := jsOr o.y 0
      width
      height
      scale := jsOr o.scale 1
      rotation := jsOr o.rotation 0
      spriteLoaded := false
      currentFrame := 0
      animationSpeed := jsOr o.animationSpeed 150
      lastFrameTime := 0
      animationPaused := false
      speed
      velocity := vel
      direction := MathUtils.atan2 vel.y vel.x
      bounds := o.bounds.getD ⟨0, 800, 0, 600⟩
      isActive := true
      isCaught := false
      fishType
      behavior
      rarity := getRarityValue fishType
      scoreValue := calculateBaseScore width height fishType
      destroyed := false
      touchRadius := width
      schoolmates := []
      threats := []
      hasAI := false
      behaviorUpdateInterval := 100
      lastBehaviorUpdate := 0 } u3

/-- `Fish.setPosition(x, y)`. -/
def setPosition (f : Fish) (x y : ℝ) : Fish := { f with x, y }

/-- `Fish.catch()` (named `catchOp` as `catch` is reserved in Lean):
freeze the fish as caught. -/
def catchOp (f : Fish) : Fish :=
  { f with isCaught := true, isActive := false, velocity := ⟨0, 0⟩ }

/-- `Fish.escape()`; `u` is the `Math.random()` sample consumed by
`_initializeMovement`. -/
def escape (f : Fish) (u : ℝ) : Fish :=
  initializeMovement { f with isCaught := false, isActive := true } u

/-- `Fish.reset()`: prepare the pooled fish for reuse. -/
def reset (f : Fish) : Fish :=
  { f with isActive := false
           isCaught := false
           currentFrame := 0
           lastFrameTime := 0
           velocity := ⟨0, 0⟩
           schoolmates := []
           threats := []
           hasAI := false
           destroyed := false }

/-- `Fish.destroy()`. -/
def destroy (f : Fish) : Fish :=
  { f with destroyed := true
           isActive := false
           spriteLoaded := false
           schoolmates := []
           threats := []
           hasAI := false }

/-- `Fish.setBehavior(behavior)`. -/
def setBehavior (f : Fish) (behavior : String) : Fish :=
  applyBehaviorModifications { f with behavior }

/-- `Fish.getScore()`: base score times size bonus times behavior bonus. -/
def getScore (f : Fish) : ℤ :=
  let sizeBonus := (f.width + f.height) / 64
  let multiplier := 1 * sizeBonus
  let multiplier :=
    match f.behavior with
    | "aggressive" => multiplier * 1.5
    | "erratic" => multiplier * 1.3
    | _ => multiplier
  jsRound ((f.scoreValue : ℝ) * multiplier)

end Fish

/-- Weather effect record `{windForce, visibility, fishActivity}`. -/
structure WeatherEffects where
  windForce : ℝ
  visibility : ℝ
  fishActivity : ℝ
deriving DecidableEq

/-- A power-up's `effect` object; a missing key is `none`. -/
structure PowerUpEffect where
  maxLineLength : Option ℝ := none
  reelingSpeed : Option ℝ := none
  castingPower : Option ℝ := none
deriving DecidableEq

/-- A power-up as passed to `applyPowerUp` (`{type, effect, duration}`). -/
structure PowerUp where
  ptype : String
  effect : PowerUpEffect
  duration : ℝ
deriving DecidableEq

/-- An entry of `activePowerUps` (a power-up stamped with its `startTime`). -/
structure ActivePowerUp where
  ptype : String
  effect : PowerUpEffect
  duration : ℝ
  startTime : ℝ
deriving DecidableEq

/-- JS truthiness of an optional number (`undefined` and `0` are falsy). -/
def jsTruthyOpt (v : Option ℝ) : Bool :=
  match v with
  | none => false
  | some x => decide (x ≠ 0)

/-- The mutable state of the `Player` (hook) entity. Event listeners and
render-only state are not modelled; `powerUpEffects` is the
`{type: effect}` object as an association list. -/
structure Player where
  x : ℝ
  y : ℝ
  isActive : Bool
  destroyed : Bool
  hookX : ℝ
  hookY : ℝ
  hookSize : ℝ
  hookVelocity : Point
  hookType : String
  hookEffectiveness : ℝ
  lineLength : ℝ
  maxLineLength : ℝ
  lineWeight : ℝ
  lineTension : ℝ
  lineBroken : Bool
  gravity : ℝ
  waterLevel : ℝ
  waterResistance : ℝ
  airResistance : ℝ
  isCasting : Bool
  castingPower : ℝ
  maxCastingPower : ℝ
  castingAngle : ℝ
  castCount : ℕ
  isReeling : Bool
  reelingSpeed : ℝ
  reelingDistance : ℝ
  caughtFish : List Fish
  totalScore : ℤ
  fishesCaught : ℤ
  environment : String
  weather : String
  weatherEffects : WeatherEffects
  activePowerUps : List ActivePowerUp
  powerUpEffects : List (String × PowerUpEffect)
  touchCastSensitivity : ℝ
  touchReelThreshold : ℝ
  lastUpdateTime : ℝ
deriving DecidableEq

/-- Constructor options of `Player` (each `options.f || default`). -/
structure PlayerOptions where
  x : Option ℝ := none
  y : Option ℝ := none
  hookSize : Option ℝ := none
  maxLineLength : Option ℝ := none
  lineWeight : Option ℝ := none
  gravity : Option ℝ := none
  waterLevel : Option ℝ := none
  waterResistance : Option ℝ := none
  airResistance : Option ℝ := none
  castingPower : Option ℝ := none
  maxCastingPower : Option ℝ := none
  reelingSpeed : Option ℝ := none
  touchCastSensitivity : Option ℝ := none
  touchReelThreshold : Option ℝ := none
  hookType : Option String := none
  environment : Option String := none
  weather : Option String := none

namespace Player

/-- `Player._getHookEffectiveness(hookType)`. -/
def getHookEffectiveness (hookType : String) : ℝ :=
  match hookType with
  | "basic" => 1.0
  | "silver_hook" => 1.2
  | "golden_hook" => 1.5
  | "diamond_hook" => 2.0
  | "legendary_hook" => 3.0
  | _ => 1.0

/-- `Player._getWeatherEffects(weather)`. -/
def getWeatherEffects (weather : String) : WeatherEffects :=
  match weather with
  | "calm" => ⟨0, 1.0, 1.0⟩
  | "windy" => ⟨2, 0.8, 0.7⟩
  | "stormy" => ⟨5, 0.5, 0.3⟩
  | "foggy" => ⟨0, 0.3, 1.2⟩
  | _ => ⟨0, 1.0, 1.0⟩

/-- `Player._applyEnvironmentEffects()`. -/
def applyEnvironmentEffects (p : Player) : Player :=
  match p.environment with
  | "shallow_water" =>
      { p with waterResistance := 0.85,
               maxLineLength := p.maxLineLength * 0.8 }
  | "deep_water" =>
      { p with waterResistance := 0.9, gravity := p.gravity * 1.2 }
  | "fast_current" =>
      { p with waterResistance := 0.7,
               hookVelocity := ⟨p.hookVelocity.x + 1, p.hookVelocity.y⟩ }
  | _ => p

/-- The `Player` constructor. -/
def init (o : PlayerOptions) : Player :=
  let x := jsOr o.x 400
  let y := jsOr o.y 50
  let hookType := jsOrStr o.hookType "basic"
  let weather := jsOrStr o.weather "calm"
  applyEnvironmentEffects
    { x
      y
      isActive := true
      destroyed := false
      hookX := x
      hookY := y
      hookSize := jsOr o.hookSize 8
      hookVelocity := ⟨0, 0⟩
      hookType
      hookEffectiveness := getHookEffectiveness hookType
      lineLength := 0
      maxLineLength := jsOr o.maxLineLength 300
      lineWeight := jsOr o.lineWeight 0.1
      lineTension := 0
      lineBroken := false
      gravity := jsOr o.gravity 0.3
      waterLevel := jsOr o.waterLevel 200
      waterResistance := jsOr o.waterResistance 0.85
      airResistance := jsOr o.airResistance 0.98
      isCasting := false
      castingPower := jsOr o.castingPower 5
      maxCastingPower := jsOr o.maxCastingPower 10
      castingAngle := 0
      castCount := 0
      isReeling := false
      reelingSpeed := jsOr o.reelingSpeed 3
      reelingDistance := 10
      caughtFish := []
      totalScore := 0
      fishesCaught := 0
      environment := jsOrStr o.environment "shallow_water"
      weather
      weatherEffects := getWeatherEffects weather
      activePowerUps := []
      powerUpEffects := []
      touchCastSensitivity := jsOr o.touchCastSensitivity 20
      touchReelThreshold := jsOr o.touchReelThreshold 5
      lastUpdateTime := 0 }

/-- `Player.cast(power, angle)`; `u` is the `Math.random()` sample of the
wind perturbation (consumed only when `windForce > 0`). -/
def cast (p : Player) (power angle u : ℝ) : Player :=
  if p.destroyed || p.isCasting || p.isReeling then p
  else
    let castingPower := MathUtils.clamp power 0 p.maxCastingPower
    let castingAngle := MathUtils.normalizeAngle angle
    let castingAngle :=
      if 0 < p.weatherEffects.windForce then
        let windEffect := p.weatherEffects.windForce * 0.1
        MathUtils.normalizeAngle
          (castingAngle + MathUtils.randomRange (-windEffect) windEffect u)
      else castingAngle
    { p with castingPower
             castingAngle
             hookVelocity := ⟨castingPower * Real.cos castingAngle,
                              castingPower * Real.sin castingAngle⟩
             isCasting := true
             lineBroken := false
             castCount := p.castCount + 1 }

/-- `Player.handleTouchCast(startTouch, endTouch)`. -/
def handleTouchCast (p : Player) (startTouch endTouch : Point) (u : ℝ) :
    Player :=
  if p.destroyed || p.isCasting || p.isReeling then p
  else
    let deltaX := endTouch.x - startTouch.x
    let deltaY := endTouch.y - startTouch.y
    let distance := MathUtils.distance (some startTouch) (some endTouch)
    let power := min (distance / p.touchCastSensitivity) p.maxCastingPower
    let angle := MathUtils.atan2 deltaY deltaX
    cast p power angle u

/-- `Player.startReeling()`. -/
def startReeling (p : Player) : Player :=
  if p.destroyed || p.isReeling || !p.isCasting then p
  else { p with isReeling := true, isCasting := false }

/-- `Player.stopReeling()`. -/
def stopReeling (p : Player) : Player :=
  if p.destroyed then p
  else { p with isReeling := false }

/-- `Player.handleTouchReel()`: delegates to `startReeling`. -/
def handleTouchReel (p : Player) : Player := startReeling p

/-- `Player._updateLineLength()`: recompute the line length from the
anchor↔hook distance. -/
def updateLineLength (p : Player) : Player :=
  { p with lineLength :=
      MathUtils.distance (some ⟨p.x, p.y⟩) (some ⟨p.hookX, p.hookY⟩) }

/-- `Player._updateLineTension()`. -/
def updateLineTension (p : Player) : Player :=
  let tensionRatio := p.lineLength / p.maxLineLength
  let p := { p with lineTension := MathUtils.clamp tensionRatio 0 1 }
  if 0.8 < p.lineTension then
    let tensionForce := (p.lineTension - 0.8) * 0.5
    let directionToPlayer := MathUtils.atan2 (p.y - p.hookY) (p.x - p.hookX)
    { p with hookVelocity :=
        ⟨p.hookVelocity.x + Real.cos directionToPlayer * tensionForce,
         p.hookVelocity.y + Real.sin directionToPlayer * tensionForce⟩ }
  else p

/-- `Player._resetHook()`. -/
def resetHook (p : Player) : Player :=
  { p with hookX := p.x
           hookY := p.y
           hookVelocity := ⟨0, 0⟩
           lineLength := 0
           lineTension := 0 }

/-- `Player._breakLine()`. The released fish are mutated through
`fish.escape()`; those objects are owned by the Game, and the Player model
only records that its own references are dropped. -/
def breakLine (p : Player) : Player :=
  resetHook { p with lineBroken := true
                     isCasting := false
                     isReeling := false
                     caughtFish := [] }

/-- `Player._applyFishResistance(deltaTime)`. `fish.weight` is never set by
the `Fish` constructor, so `(fish.weight || 1)` is always `1`. -/
def applyFishResistance (p : Player) : Player :=
  let totalResistance := p.caughtFish.foldl (fun sum _ => sum + 1 * 0.1) 0
  { p with hookVelocity := ⟨p.hookVelocity.x * (1 - totalResistance),
                            p.hookVelocity.y * (1 - totalResistance)⟩ }

/-- The hook velocity after the gravity, air/water-resistance and wind steps
of `_updateHookPhysics`. The three source statements only write
`hookVelocity`, while their conditions read `hookY`, `waterLevel` and
`weatherEffects`, which they never modify — so the composite is a function
of the pre-update state. -/
def newHookVelocity (p : Player) (deltaTime : ℝ) : Point :=
  let deltaSeconds := deltaTime / 1000
  let v : Point := ⟨p.hookVelocity.x,
                    p.hookVelocity.y + p.gravity * deltaSeconds * 60⟩
  let v : Point :=
    if p.hookY < p.waterLevel then
      ⟨v.x * p.airResistance, v.y * p.airResistance⟩
    else
      ⟨v.x * p.waterResistance, v.y * p.waterResistance⟩
  if 0 < p.weatherEffects.windForce ∧ p.hookY < p.waterLevel then
    ⟨v.x + p.weatherEffects.windForce * 0.01, v.y⟩
  else v

/-- The line length `_updateLineLength` recomputes during
`_updateHookPhysics` (anchor↔hook distance at the post-integration hook
position), as a function of the pre-update state. -/
def newLineLength (p : Player) (deltaTime : ℝ) : ℝ :=
  MathUtils.distance (some ⟨p.x, p.y⟩)
    (some ⟨p.hookX + (newHookVelocity p deltaTime).x * (deltaTime / 1000) * 60,
           p.hookY + (newHookVelocity p deltaTime).y * (deltaTime / 1000) * 60⟩)

/-- `Player._updateHookPhysics(deltaTime)`. -/
def updateHookPhysics (p : Player) (deltaTime : ℝ) : Player :=
  if !p.isCasting && !p.isReeling then p
  else
    let deltaSeconds := deltaTime / 1000
    let p := { p with hookVelocity := newHookVelocity p deltaTime }
    let p := { p with hookX := p.hookX + p.hookVelocity.x * deltaSeconds * 60,
                      hookY := p.hookY + p.hookVelocity.y * deltaSeconds * 60 }
    let p := updateLineTension (updateLineLength p)
    let p := if p.maxLineLength < p.lineLength then breakLine p else p
    if 0 < p.caughtFish.length then applyFishResistance p else p

/-- `Player._completeReeling()`. -/
def completeReeling (p : Player) : Player :=
  let p := { p with isReeling := false, isCasting := false }
  let p := { p with
    totalScore := p.caughtFish.foldl (fun s (fish : Fish) => s + fish.getScore)
      p.totalScore
    fishesCaught := p.fishesCaught + p.caughtFish.length }
  resetHook { p with caughtFish := [] }

/-- Association-list lookup for the JS `powerUpEffects[type]` object read. -/
def lookupEffect (l : List (String × PowerUpEffect)) (k : String) :
    Option PowerUpEffect :=
  (l.find? (fun e => e.1 == k)).map (fun e => e.2)

/-- `Player._updateReeling(deltaTime)`. Multiplying `reelingForce` by the
power-up *effect object* would be `NaN` in JS; the model multiplies by the
object's `reelingSpeed` entry (or 0) — no claim depends on this value. -/
def updateReeling (p : Player) (_deltaTime : ℝ) : Player :=
  if !p.isReeling then p
  else
    let directionToPlayer := MathUtils.atan2 (p.y - p.hookY) (p.x - p.hookX)
    let reelingForce := p.reelingSpeed
    let reelingForce :=
      if 0 < p.caughtFish.length then
        reelingForce * (1 - p.caughtFish.length * 0.3)
      else reelingForce
    let reelingForce :=
      match lookupEffect p.powerUpEffects "reelingSpeed" with
      | some eff => reelingForce * (eff.reelingSpeed.getD 0)
      | none => reelingForce
    let p := { p with hookVelocity :=
        ⟨Real.cos directionToPlayer * reelingForce,
         Real.sin directionToPlayer * reelingForce⟩ }
    if p.lineLength ≤ p.reelingDistance then completeReeling p else p

/-- One step of the `activePowerUps.filter` callback of
`Player._updatePowerUps`: returns the mutated player and whether the
power-up is kept. -/
def processPowerUp (p : Player) (pu : ActivePowerUp) (now : ℝ) :
    Player × Bool :=
  let elapsed := now - pu.startTime
  if pu.duration ≤ elapsed then
    let p := { p with powerUpEffects :=
        p.powerUpEffects.filter (fun e => !(e.1 == pu.ptype)) }
    let p := if jsTruthyOpt pu.effect.maxLineLength then
        { p with maxLineLength := 300 } else p
    let p := if jsTruthyOpt pu.effect.reelingSpeed then
        { p with reelingSpeed := 3 } else p
    (p, false)
  else (p, true)

/-- The in-order traversal of `activePowerUps.filter` with its side
effects. -/
def updatePowerUpsLoop (p : Player) (l : List ActivePowerUp) (now : ℝ) :
    Player × List ActivePowerUp :=
  match l with
  | [] => (p, [])
  | pu :: rest =>
      let step := processPowerUp p pu now
      let restRes := updatePowerUpsLoop step.1 rest now
      (restRes.1, if step.2 then pu :: restRes.2 else restRes.2)

/-- `Player._updatePowerUps(deltaTime)`; `now` models `Date.now()`. -/
def updatePowerUps (p : Player) (now : ℝ) : Player :=
  let res := updatePowerUpsLoop p p.activePowerUps now
  { res.1 with activePowerUps := res.2 }

/-- `Player.catchFish(fish)`; `u` is the `Math.random()` catch roll. The
caught fish object is mutated through `fish.catch()`; the list stores the
mutated value. -/
def catchFish (p : Player) (fish : Fish) (u : ℝ) : Player :=
  if p.destroyed = true ∨ fish.isCaught = true ∨ fish ∈ p.caughtFish then p
  else
    let catchChance := p.hookEffectiveness * p.weatherEffects.fishActivity
    if catchChance * 0.8 < u then p
    else
      let caught := fish.catchOp
      let score := caught.getScore
      { p with caughtFish := p.caughtFish ++ [caught]
               totalScore := p.totalScore + score
               fishesCaught := p.fishesCaught + 1 }

/-- `Player.handleFishEscape(fish, escapeChance)`; `u` is the
`Math.random()` escape roll. The escaping fish is mutated through
`fish.escape()`; the Player only drops its reference. -/
def handleFishEscape (p : Player) (fish : Fish) (escapeChance u : ℝ) :
    Player :=
  if u < escapeChance then
    if fish ∈ p.caughtFish then
      let p := { p with caughtFish := p.caughtFish.erase fish }
      let score := fish.getScore
      { p with totalScore := max 0 (p.totalScore - score)
               fishesCaught := max 0 (p.fishesCaught - 1) }
    else p
  else p

/-- The `Object.keys(powerUp.effect).forEach` loop of `applyPowerUp`: each
present key overwrites the matching player property. -/
def applyEffectWrites (p : Player) (eff : PowerUpEffect) : Player :=
  let p := match eff.maxLineLength with
    | some v => { p with maxLineLength := v }
    | none => p
  let p := match eff.reelingSpeed with
    | some v => { p with reelingSpeed := v }
    | none => p
  match eff.castingPower with
  | some v => { p with maxCastingPower := v }
  | none => p

/-- `Player.applyPowerUp(powerUp)`; `now` models `Date.now()`. The
association list write `powerUpEffects[type] = effect` overwrites any
existing entry of that key. -/
def applyPowerUp (p : Player) (powerUp : PowerUp) (now : ℝ) : Player :=
  if p.destroyed then p
  else
    let p := applyEffectWrites p powerUp.effect
    { p with activePowerUps := p.activePowerUps ++
        [⟨powerUp.ptype, powerUp.effect, powerUp.duration, now⟩]
             powerUpEffects :=
        (if p.powerUpEffects.any (fun e => e.1 == powerUp.ptype) then
          p.powerUpEffects.map (fun e =>
            if e.1 == powerUp.ptype then (powerUp.ptype, powerUp.effect) else e)
        else p.powerUpEffects ++ [(powerUp.ptype, powerUp.effect)]) }

/-- `Player.reset()`. -/
def reset (p : Player) : Player :=
  resetHook { p with isCasting := false
                     isReeling := false
                     lineBroken := false
                     caughtFish := [] }

/-- `Player.update(deltaTime)`; `now` models the `Date.now()` read inside
`_updatePowerUps`. -/
def update (p : Player) (deltaTime now : ℝ) : Player :=
  if p.destroyed then p
  else
    let p := { p with lastUpdateTime := deltaTime }
    updatePowerUps (updateReeling (updateHookPhysics p deltaTime) deltaTime)
      now

/-- `Player.destroy()`. The released fish are mutated through
`fish.escape()`; the Player drops all references. -/
def destroy (p : Player) : Player :=
  { p with destroyed := true
           isActive := false
           caughtFish := []
           activePowerUps := []
           powerUpEffects := [] }

/-- The scenario of the repository's own line-break test (and of spec
Scenario 4): a default Player after `cast(5, Math.PI / 4)`, with
`lineLength` then set directly to `maxLineLength + 50`. -/
def breakTestPlayer : Player :=
  { cast (init {}) 5 (Real.pi / 4) 0 with
      lineLength := (cast (init {}) 5 (Real.pi / 4) 0).maxLineLength + 50 }

/-- One public operation of the Player, with its oracle inputs. -/
inductive Step : Player → Player → Prop where
  | cast (p : Player) (power angle u : ℝ) : Step p (p.cast power angle u)
  | handleTouchCast (p : Player) (s e : Point) (u : ℝ) :
      Step p (p.handleTouchCast s e u)
  | startReeling (p : Player) : Step p p.startReeling
  | stopReeling (p : Player) : Step p p.stopReeling
  | handleTouchReel (p : Player) : Step p p.handleTouchReel
  | update (p : Player) (dt now : ℝ) : Step p (p.update dt now)
  | catchFish (p : Player) (fish : Fish) (u : ℝ) : Step p (p.catchFish fish u)
  | handleFishEscape (p : Player) (fish : Fish) (chance u : ℝ) :
      Step p (p.handleFishEscape fish chance u)
  | applyPowerUp (p : Player) (pu : PowerUp) (now : ℝ) :
      Step p (p.applyPowerUp pu now)
  | reset (p : Player) : Step p p.reset
  | destroy (p : Player) : Step p p.destroy

/-- The states reachable from a freshly constructed Player through its
public operations. -/
def Reachable (o : PlayerOptions) (p : Player) : Prop :=
  Relation.ReflTransGen Step (init o) p

/-- The mutual-exclusion property of the casting/reeling flags. -/
def FlagsOK (p : Player) : Prop :=
  ¬(p.isCasting = true ∧ p.isReeling = true)

end Player

/-- The three gesture zones of the TouchController
(`{casting, reeling, player}`). -/
structure TouchZones where
  casting : Rect
  reeling : Rect
  player : Rect
deriving DecidableEq

/-- A recognized gesture record (`lastGesture`): type, position and
timestamp. -/
structure Gesture where
  gtype : String
  posX : ℝ
  posY : ℝ
  timestamp : ℝ
deriving DecidableEq

/-- The TouchController state. Canvas/event-listener plumbing, the touch
pool internals and haptic feedback are not modelled; `player` is the
reference handed in through the constructor options. -/
structure TouchController where
  destroyed : Bool
  isEnabled : Bool
  currentMode : String
  player : Option Player
  gestureThreshold : ℝ
  doubleTapDelay : ℝ
  longPressDelay : ℝ
  swipeMinDistance : ℝ
  touchZones : TouchZones
  lastTapTime : ℝ
  lastTapPosition : Option Point
  lastGesture : Option Gesture
  mouseDown : Bool
  activeTouches : List ℕ
  touchPool : List ℕ
deriving DecidableEq

namespace TouchController

/-- `TouchController._initializeTouchZones()` for a canvas rectangle of the
given width and height: top 40% casting, bottom 60% reeling, 88×88 player
zone around `player?.x/y` (with `||`-defaults). -/
def initializeTouchZones (player : Option Player) (width height : ℝ) :
    TouchZones :=
  { casting := ⟨0, 0, width, height * 0.4⟩
    reeling := ⟨0, height * 0.4, width, height * 0.6⟩
    player := ⟨(match player with
                | some p => jsOr (some p.x) (width / 2)
                | none => width / 2) - 44,
               (match player with
                | some p => jsOr (some p.y) 50
                | none => 50) - 44, 88, 88⟩ }

/-- `TouchController.isInCastingZone(x, y)`. -/
def isInCastingZone (tc : TouchController) (x y : ℝ) : Prop :=
  x ≥ tc.touchZones.casting.x ∧
  x ≤ tc.touchZones.casting.x + tc.touchZones.casting.width ∧
  y ≥ tc.touchZones.casting.y ∧
  y ≤ tc.touchZones.casting.y + tc.touchZones.casting.height

/-- `TouchController.isInReelingZone(x, y)`. -/
def isInReelingZone (tc : TouchController) (x y : ℝ) : Prop :=
  x ≥ tc.touchZones.reeling.x ∧
  x ≤ tc.touchZones.reeling.x + tc.touchZones.reeling.width ∧
  y ≥ tc.touchZones.reeling.y ∧
  y ≤ tc.touchZones.reeling.y + tc.touchZones.reeling.height

/-- `TouchController._handleGameTap(position)`: after the mode/player guard,
the tap-to-reel mapping is commented out in the source
(`// TEMP DISABLE: Auto-reeling on tap`), so the method performs no
action. -/
def handleGameTap (tc : TouchController) (_position : Point) :
    TouchController :=
  if tc.currentMode ≠ "fishing" ∨ tc.player = none then tc
  else tc

/-- `TouchController._handleDoubleTap(position)`. -/
def handleDoubleTap (tc : TouchController) (position : Point) (now : ℝ) :
    TouchController :=
  { tc with lastGesture := some ⟨"doubleTap", position.x, position.y, now⟩ }

open Classical in
/-- `TouchController._handleTap(position)`; `now` models `Date.now()`. -/
def handleTap (tc : TouchController) (position : Point) (now : ℝ) :
    TouchController :=
  if tc.lastTapTime ≠ 0 ∧ now - tc.lastTapTime < tc.doubleTapDelay ∧
      (match tc.lastTapPosition with
       | none => False
       | some lp => |position.x - lp.x| < tc.gestureThreshold ∧
                    |position.y - lp.y| < tc.gestureThreshold) then
    { handleDoubleTap tc position now with lastTapTime := 0 }
  else
    let tc := { tc with lastTapTime := now, lastTapPosition := some position }
    let tc := handleGameTap tc position
    { tc with lastGesture := some ⟨"tap", position.x, position.y, now⟩ }

/-- `TouchController._getSwipeDirection(deltaX, deltaY)`. -/
def getSwipeDirection (deltaX deltaY : ℝ) : String :=
  if |deltaY| < |deltaX| then (if 0 < deltaX then "right" else "left")
  else (if 0 < deltaY then "down" else "up")

open Classical in
/-- `TouchController._handleGameSwipe(swipeData)`; `u` is the
`Math.random()` sample that `Player.handleTouchCast → cast` may consume. -/
def handleGameSwipe (tc : TouchController) (s e : Point) (distance u : ℝ) :
    TouchController :=
  if tc.currentMode ≠ "fishing" ∨ tc.player = none then tc
  else if isInCastingZone tc s.x s.y ∧ tc.swipeMinDistance ≤ distance then
    match tc.player with
    | some p => { tc with player := some (p.handleTouchCast s e u) }
    | none => tc
  else tc

/-- `TouchController._handleSwipe(swipeData)`. -/
def handleSwipe (tc : TouchController) (s e : Point) (distance now u : ℝ) :
    TouchController :=
  let tc := handleGameSwipe tc s e distance u
  { tc with lastGesture := some ⟨"swipe", e.x, e.y, now⟩ }

/-- `TouchController._recognizeGesture(touchObj, duration, distance)`:
a short, small-displacement contact is a tap; a long displacement is a
swipe; anything else is ignored. -/
def recognizeGesture (tc : TouchController) (startX startY currentX currentY
    duration distance now u : ℝ) : TouchController :=
  if distance < tc.gestureThreshold ∧ duration < tc.longPressDelay then
    handleTap tc ⟨currentX, currentY⟩ now
  else if tc.swipeMinDistance ≤ distance then
    handleSwipe tc ⟨startX, startY⟩ ⟨currentX, currentY⟩ distance now u
  else tc

/-- `TouchController.setGestureThreshold(threshold)`: throws on a
non-positive threshold (modelled by `Except.error`), with no
destroyed-guard. -/
def setGestureThreshold (tc : TouchController) (threshold : ℝ) :
    Except String TouchController :=
  if threshold ≤ 0 then Except.error "Gesture threshold must be positive"
  else Except.ok { tc with gestureThreshold := threshold }

/-- `TouchController.destroy()`: flags, mouse state, touches and pool are
cleared; gesture bookkeeping (`lastTapTime`, `lastGesture`, thresholds,
zones) is not reset. -/
def destroy (tc : TouchController) : TouchController :=
  { tc with destroyed := true
            isEnabled := false
            mouseDown := false
            activeTouches := []
            touchPool := [] }

end TouchController

/-- A concrete casting player for the tap scenario: a default Player with
the casting flag on. -/
def tapTestPlayer : Player := { Player.init {} with isCasting := true }

/-- A concrete TouchController in fishing mode holding `tapTestPlayer`,
with the default gesture configuration and zones of a 375×667 canvas. -/
def tapTestController : TouchController :=
  { destroyed := false
    isEnabled := true
    currentMode := "fishing"
    player := some tapTestPlayer
    gestureThreshold := 10
    doubleTapDelay := 300
    longPressDelay := 500
    swipeMinDistance := 50
    touchZones := TouchController.initializeTouchZones (some tapTestPlayer)
      375 667
    lastTapTime := 0
    lastTapPosition := none
    lastGesture := none
    mouseDown := false
    activeTouches := []
    touchPool := [] }

/-- A concrete default-constructed fish (all `Math.random()` samples 0). -/
def sampleFish : Fish := Fish.init {} 0 0 0

/-- The Game's `stats` object. -/
structure GameStats where
  score : ℤ
  fishCaught : ℕ
  casts : ℕ
  accuracy : ℝ
  playTime : ℝ
  bestScore : ℤ
deriving DecidableEq

/-- The Game orchestrator state (fish management, scoring and combo).
Canvas/render/audio/UI plumbing, the loop scheduling handle and the
player/touch-controller references are not modelled. -/
structure Game where
  width : ℝ
  height : ℝ
  gameState : String
  isRunning : Bool
  isPaused : Bool
  destroyed : Bool
  stats : GameStats
  maxFish : ℕ
  fishPool : List Fish
  activeFish : List Fish
  fishSpawnRate : ℝ
  lastFishSpawn : ℝ
  fishSpawnInterval : ℝ
  comboCount : ℕ
  comboMultiplier : ℝ
  comboTimeout : ℝ
  lastComboTime : ℝ
deriving DecidableEq

namespace Game

/-- `Game._returnFishToPool(fish)`: deactivate and park the fish, remove it
from `activeFish` (splice at `indexOf`, i.e. the first occurrence), and
push it back to the pool if the pool is below its cap. JS `indexOf`
compares object references; value equality stands in for identity, and the
removal uses the pre-mutation value held in the list. -/
def returnFishToPool (g : Game) (fish : Fish) : Game :=
  let returned : Fish := { fish with isActive := false, x := -100, y := -100 }
  let g := { g with activeFish := g.activeFish.erase fish }
  if g.fishPool.length < g.maxFish * 2 then
    { g with fishPool := g.fishPool ++ [returned] }
  else g

/-- `Game._spawnFish()`: take a fish from the pool (`pop`, the last
element), place it at a random edge position, set it active — and then
call `fish.reset()`, which clears `isActive` and the velocity again —
finally appending it to `activeFish`. `uSide, uY` are the `Math.random()`
samples. -/
def spawnFish (g : Game) (uSide uY : ℝ) : Game :=
  if g.maxFish ≤ g.activeFish.length then g
  else
    match g.fishPool.getLast? with
    | none => g
    | some fish =>
        let g := { g with fishPool := g.fishPool.dropLast }
        let x := if uSide < 0.5 then (-50 : ℝ) else g.width + 50
        let y := MathUtils.randomRange (g.height * 0.3) (g.height - 50) uY
        let fish := fish.setPosition x y
        let fish := { fish with isActive := true }
        let fish := fish.reset
        { g with activeFish := g.activeFish ++ [fish] }

open Classical in
/-- The body of `Game._cleanupFish`'s backward for-loop; the argument is
`i + 1` where `i` is the loop index. An out-of-range index (impossible
under the loop invariant) is modelled as a skip. -/
def cleanupLoop (g : Game) : ℕ → Game
  | 0 => g
  | (i + 1) =>
      match g.activeFish.get? i with
      | none => cleanupLoop g i
      | some fish =>
          if fish.isActive = false ∨ fish.x < -100 ∨ g.width + 100 < fish.x
          then cleanupLoop (returnFishToPool g fish) i
          else cleanupLoop g i

/-- `Game._cleanupFish()`: walk `activeFish` backwards and return every
inactive or off-field fish to the pool. -/
def cleanupFish (g : Game) : Game := cleanupLoop g g.activeFish.length

/-- `Game._updateScore(points)`:
`stats.score += Math.floor(points * comboMultiplier)`. -/
def updateScore (g : Game) (points : ℤ) : Game :=
  { g with stats := { g.stats with
      score := g.stats.score + ⌊(points : ℝ) * g.comboMultiplier⌋ } }

/-- `Game._updateCombo()`; `now` models `Date.now()`. -/
def updateCombo (g : Game) (now : ℝ) : Game :=
  let g := { g with comboCount := g.comboCount + 1, lastComboTime := now }
  { g with
    comboMultiplier := min (1.0 + ((g.comboCount : ℝ) - 1) * 0.1) 3.0 }

/-- `Game._handleFishCaught(data)`: bump the fish count, apply the score
with the current combo multiplier, advance the combo, and return the fish
to the pool immediately. -/
def handleFishCaught (g : Game) (fish : Fish) (score : ℤ) (now : ℝ) : Game :=
  let g := { g with stats := { g.stats with
      fishCaught := g.stats.fishCaught + 1 } }
  let g := updateScore g score
  let g := updateCombo g now
  returnFishToPool g fish

/-- `Game.destroy()`. The inner `this.stop()` call is a no-op because
`destroyed` has just been set and `stop()` returns early on a destroyed
game; the player/touch-controller/fish `destroy()` calls mutate external
objects, after which both fish lists are cleared. -/
def destroy (g : Game) : Game :=
  { g with destroyed := true, activeFish := [], fishPool := [] }

end Game

/-- A concrete playing Game whose single active fish is `sampleFish` (the
scenario of a catch: the hook has just collided with it). -/
def catchTestGame : Game :=
  { width := 375
    height := 667
    gameState := "playing"
    isRunning := true
    isPaused := false
    destroyed := false
    stats := ⟨0, 0, 0, 0, 0, 0⟩
    maxFish := 10
    fishPool := []
    activeFish := [sampleFish]
    fishSpawnRate := 1.0
    lastFishSpawn := 0
    fishSpawnInterval := 2000
    comboCount := 0
    comboMultiplier := 1.0
    comboTimeout := 5000
    lastComboTime := 0 }

/-- A concrete playing Game with an empty playfield and `sampleFish` in the
pool (the scenario of a spawn). -/
def spawnTestGame : Game :=
  { width := 375
    height := 667
    gameState := "playing"
    isRunning := true
    isPaused := false
    destroyed := false
    stats := ⟨0, 0, 0, 0, 0, 0⟩
    maxFish := 10
    fishPool := [sampleFish]
    activeFish := []
    fishSpawnRate := 1.0
    lastFishSpawn := 0
    fishSpawnInterval := 2000
    comboCount := 0
    comboMultiplier := 1.0
    comboTimeout := 5000
    lastComboTime := 0 }

namespace MathUtils

theorem angleLoopUp_nonneg (a : ℝ) : 0 ≤ angleLoopUp a := by
  induction a using angleLoopUp.induct with
  | case1 a h ih =>
      rw [angleLoopUp, dif_pos h]
      exact ih
  | case2 a h =>
      rw [angleLoopUp, dif_neg h]
      exact not_lt.mp h

theorem angleLoopDown_lt (a : ℝ) : angleLoopDown a < 2 * Real.pi := by
  induction a using angleLoopDown.induct with
  | case1 a h ih =>
      rw [angleLoopDown, dif_pos h]
      exact ih
  | case2 a h =>
      rw [angleLoopDown, dif_neg h]
      exact not_le.mp h

theorem angleLoopDown_nonneg (a : ℝ) : 0 ≤ a → 0 ≤ angleLoopDown a := by
  induction a using angleLoopDown.induct with
  | case1 a h ih =>
      intro _
      rw [angleLoopDown, dif_pos h]
      exact ih (by linarith)
  | case2 a h =>
      intro ha
      rw [angleLoopDown, dif_neg h]
      exact ha

theorem normalizeAngle_eq_self (a : ℝ) (h0 : 0 ≤ a) (h2 : a < 2 * Real.pi) :
    normalizeAngle a = a := by
  unfold normalizeAngle
  rw [angleLoopUp, dif_neg (not_lt.mpr h0), angleLoopDown,
    dif_neg (not_le.mpr h2)]

end MathUtils

/-- Claim C5, as stated, is false: for circles with a negative radius sum the
two collision predicates disagree. With `a = {x:0, y:0, radius:-10}` and
`b = {x:3, y:0, radius:0}` (all values finite), `fastCircleCollision` holds
(`9 ≤ 100`) while `circleCollision` fails (`√9 ≤ -10` is false). -/
theorem C5_counterexample :
    MathUtils.fastCircleCollision (some ⟨0, 0, -10⟩) (some ⟨3, 0, 0⟩) ∧
    ¬ MathUtils.circleCollision (some ⟨0, 0, -10⟩) (some ⟨3, 0, 0⟩) := by
  constructor
  · show MathUtils.distanceSquared (some ⟨0, 0⟩) (some ⟨3, 0⟩)
        ≤ ((-10) + 0) * ((-10) + 0)
    simp only [MathUtils.distanceSquared]
    norm_num
  · intro hc
    have hd : MathUtils.distance (some ⟨0, 0⟩) (some ⟨3, 0⟩) ≤ (-10) + 0 := hc
    have hnn := Real.sqrt_nonneg
      (((3:ℝ) - 0) * ((3:ℝ) - 0) + ((0:ℝ) - 0) * ((0:ℝ) - 0))
    simp only [MathUtils.distance] at hd
    linarith

/-- Claim C5 (amended): for every pair of non-null circles whose radius sum is
nonnegative (in particular for all circles with nonnegative radii),
`fastCircleCollision` returns exactly the same boolean as `circleCollision`,
and the boundary is inclusive: when the centre distance equals the radius sum
the collision holds. -/
theorem C5_collision_equivalence (c1 c2 : Circle)
    (h : 0 ≤ c1.radius + c2.radius) :
    (MathUtils.circleCollision (some c1) (some c2) ↔
      MathUtils.fastCircleCollision (some c1) (some c2)) ∧
    (MathUtils.distance (some ⟨c1.x, c1.y⟩) (some ⟨c2.x, c2.y⟩)
        = c1.radius + c2.radius →
      MathUtils.circleCollision (some c1) (some c2)) := by
  have hs : 0 ≤ (c2.x - c1.x) * (c2.x - c1.x) + (c2.y - c1.y) * (c2.y - c1.y) :=
    add_nonneg (mul_self_nonneg _) (mul_self_nonneg _)
  constructor
  · constructor
    · intro hc
      have hd : Real.sqrt ((c2.x - c1.x) * (c2.x - c1.x) +
          (c2.y - c1.y) * (c2.y - c1.y)) ≤ c1.radius + c2.radius := hc
      show (c2.x - c1.x) * (c2.x - c1.x) + (c2.y - c1.y) * (c2.y - c1.y)
          ≤ (c1.radius + c2.radius) * (c1.radius + c2.radius)
      calc (c2.x - c1.x) * (c2.x - c1.x) + (c2.y - c1.y) * (c2.y - c1.y)
          = Real.sqrt ((c2.x - c1.x) * (c2.x - c1.x) +
              (c2.y - c1.y) * (c2.y - c1.y)) *
            Real.sqrt ((c2.x - c1.x) * (c2.x - c1.x) +
              (c2.y - c1.y) * (c2.y - c1.y)) := (Real.mul_self_sqrt hs).symm
        _ ≤ (c1.radius + c2.radius) * (c1.radius + c2.radius) :=
            mul_self_le_mul_self (Real.sqrt_nonneg _) hd
    · intro hf
      have hd : (c2.x - c1.x) * (c2.x - c1.x) + (c2.y - c1.y) * (c2.y - c1.y)
          ≤ (c1.radius + c2.radius) * (c1.radius + c2.radius) := hf
      show Real.sqrt ((c2.x - c1.x) * (c2.x - c1.x) +
          (c2.y - c1.y) * (c2.y - c1.y)) ≤ c1.radius + c2.radius
      calc Real.sqrt ((c2.x - c1.x) * (c2.x - c1.x) +
            (c2.y - c1.y) * (c2.y - c1.y))
          ≤ Real.sqrt ((c1.radius + c2.radius) * (c1.radius + c2.radius)) :=
            Real.sqrt_le_sqrt hd
        _ = c1.radius + c2.radius := Real.sqrt_mul_self h
  · intro he
    exact le_of_eq he

/-- Witness for `C5_collision_equivalence`, at the concrete tangent circles
`{x:0, y:0, radius:3}` and `{x:4, y:0, radius:2}`. -/
theorem C5_collision_equivalence_witness :
    (0:ℝ) ≤ (3:ℝ) + 2 ∧
    ((MathUtils.circleCollision (some ⟨0, 0, 3⟩) (some ⟨4, 0, 2⟩) ↔
      MathUtils.fastCircleCollision (some ⟨0, 0, 3⟩) (some ⟨4, 0, 2⟩)) ∧
    (MathUtils.distance (some ⟨0, 0⟩) (some ⟨4, 0⟩) = 3 + 2 →
      MathUtils.circleCollision (some ⟨0, 0, 3⟩) (some ⟨4, 0, 2⟩))) :=
  ⟨by norm_num, C5_collision_equivalence ⟨0, 0, 3⟩ ⟨4, 0, 2⟩ (by norm_num)⟩

/-- Claim C6, as stated, is false: `randomPointInCircle` has no null guard
(the source dereferences `center.x` directly), so a null `center` throws a
`TypeError` — modelled by the `none` result — instead of returning a neutral
zero value. Concrete input: `center = null`, `radius = 5`. -/
theorem C6_counterexample :
    MathUtils.randomPointInCircle none 5 0 0 = none := rfl

/-- Claim C6 (amended): every MathUtils function that begins with a null
guard (`distance`, `distanceSquared`, `magnitude`, `normalize`, `addVectors`,
`subtractVectors`, `multiplyVector`, `angleBetween`, `circleCollision`,
`fastCircleCollision`, `rectangleCollision`, `pointInCircle`,
`pointInRectangle`, and `isInBounds` via delegation) returns its neutral
zero value (distance 0, vector `{0,0}`, collision false) on a null input;
but `randomPointInCircle`, `applyGravity` and `applyFriction` have no guard
and throw (modelled by `none`) when their object argument is null. -/
theorem C6_null_tolerance :
    (∀ p, MathUtils.distance none p = 0 ∧ MathUtils.distance p none = 0) ∧
    (∀ p, MathUtils.distanceSquared none p = 0 ∧
      MathUtils.distanceSquared p none = 0) ∧
    MathUtils.magnitude none = 0 ∧
    MathUtils.normalize none = ⟨0, 0⟩ ∧
    (∀ v, MathUtils.addVectors none v = ⟨0, 0⟩ ∧
      MathUtils.addVectors v none = ⟨0, 0⟩) ∧
    (∀ v, MathUtils.subtractVectors none v = ⟨0, 0⟩ ∧
      MathUtils.subtractVectors v none = ⟨0, 0⟩) ∧
    (∀ s, MathUtils.multiplyVector none s = ⟨0, 0⟩) ∧
    (∀ p, MathUtils.angleBetween none p = 0 ∧
      MathUtils.angleBetween p none = 0) ∧
    (∀ c, ¬ MathUtils.circleCollision none c ∧
      ¬ MathUtils.circleCollision c none) ∧
    (∀ c, ¬ MathUtils.fastCircleCollision none c ∧
      ¬ MathUtils.fastCircleCollision c none) ∧
    (∀ r, ¬ MathUtils.rectangleCollision none r ∧
      ¬ MathUtils.rectangleCollision r none) ∧
    (∀ c, ¬ MathUtils.pointInCircle none c) ∧
    (∀ p, ¬ MathUtils.pointInCircle p none) ∧
    (∀ r, ¬ MathUtils.pointInRectangle none r) ∧
    (∀ p, ¬ MathUtils.pointInRectangle p none) ∧
    (∀ p, ¬ MathUtils.isInBounds p none) ∧
    (∀ radius u1 u2, MathUtils.randomPointInCircle none radius u1 u2 = none) ∧
    (∀ g dt, MathUtils.applyGravity none g dt = none) ∧
    (∀ f, MathUtils.applyFriction none f = none) := by
  refine ⟨?_, ?_, rfl, rfl, ?_, ?_, fun s => rfl, ?_, ?_, ?_, ?_, ?_, ?_,
    ?_, ?_, ?_, fun radius u1 u2 => rfl, fun g dt => rfl, fun f => rfl⟩
  · intro p
    exact ⟨rfl, by cases p <;> rfl⟩
  · intro p
    exact ⟨rfl, by cases p <;> rfl⟩
  · intro v
    exact ⟨rfl, by cases v <;> rfl⟩
  · intro v
    exact ⟨rfl, by cases v <;> rfl⟩
  · intro p
    exact ⟨rfl, by cases p <;> rfl⟩
  · intro c
    refine ⟨fun hc => hc, fun hc => ?_⟩
    cases c <;> exact hc
  · intro c
    refine ⟨fun hc => hc, fun hc => ?_⟩
    cases c <;> exact hc
  · intro r
    refine ⟨fun hc => hc, fun hc => ?_⟩
    cases r <;> exact hc
  · intro c
    exact fun hc => hc
  · intro p
    intro hc
    cases p <;> exact hc
  · intro r
    exact fun hc => hc
  · intro p
    intro hc
    cases p <;> exact hc
  · intro p
    intro hc
    cases p <;> exact hc

namespace Fish

theorem applyBehaviorModifications_width (f : Fish) :
    (applyBehaviorModifications f).width = f.width := by
  unfold applyBehaviorModifications
  split <;> rfl

theorem applyBehaviorModifications_height (f : Fish) :
    (applyBehaviorModifications f).height = f.height := by
  unfold applyBehaviorModifications
  split <;> rfl

theorem applyBehaviorModifications_behavior (f : Fish) :
    (applyBehaviorModifications f).behavior = f.behavior := by
  unfold applyBehaviorModifications
  split <;> rfl

theorem applyBehaviorModifications_fishType (f : Fish) :
    (applyBehaviorModifications f).fishType = f.fishType := by
  unfold applyBehaviorModifications
  split <;> rfl

theorem applyBehaviorModifications_scoreValue (f : Fish) :
    (applyBehaviorModifications f).scoreValue = f.scoreValue := by
  unfold applyBehaviorModifications
  split <;> rfl

theorem initializeMovement_width (f : Fish) (u : ℝ) :
    (initializeMovement f u).width = f.width :=
  applyBehaviorModifications_width _

theorem initializeMovement_height (f : Fish) (u : ℝ) :
    (initializeMovement f u).height = f.height :=
  applyBehaviorModifications_height _

theorem initializeMovement_behavior (f : Fish) (u : ℝ) :
    (initializeMovement f u).behavior = f.behavior :=
  applyBehaviorModifications_behavior _

theorem initializeMovement_fishType (f : Fish) (u : ℝ) :
    (initializeMovement f u).fishType = f.fishType :=
  applyBehaviorModifications_fishType _

theorem initializeMovement_scoreValue (f : Fish) (u : ℝ) :
    (initializeMovement f u).scoreValue = f.scoreValue :=
  applyBehaviorModifications_scoreValue _

theorem one_le_getRarityValue (s : String) : 1 ≤ getRarityValue s := by
  unfold getRarityValue
  split <;> norm_num

end Fish

namespace Player

theorem updateLineLength_isCasting (p : Player) :
    (updateLineLength p).isCasting = p.isCasting := rfl

theorem updateLineLength_isReeling (p : Player) :
    (updateLineLength p).isReeling = p.isReeling := rfl

theorem updateLineTension_isCasting (p : Player) :
    (updateLineTension p).isCasting = p.isCasting := by
  simp only [updateLineTension]
  split <;> rfl

theorem updateLineTension_isReeling (p : Player) :
    (updateLineTension p).isReeling = p.isReeling := by
  simp only [updateLineTension]
  split <;> rfl

theorem resetHook_isCasting (p : Player) :
    (resetHook p).isCasting = p.isCasting := rfl

theorem resetHook_isReeling (p : Player) :
    (resetHook p).isReeling = p.isReeling := rfl

theorem breakLine_isCasting (p : Player) :
    (breakLine p).isCasting = false := rfl

theorem breakLine_isReeling (p : Player) :
    (breakLine p).isReeling = false := rfl

theorem applyFishResistance_isCasting (p : Player) :
    (applyFishResistance p).isCasting = p.isCasting := rfl

theorem applyFishResistance_isReeling (p : Player) :
    (applyFishResistance p).isReeling = p.isReeling := rfl

theorem completeReeling_isCasting (p : Player) :
    (completeReeling p).isCasting = false := rfl

theorem completeReeling_isReeling (p : Player) :
    (completeReeling p).isReeling = false := rfl

theorem updateHookPhysics_FlagsOK (p : Player) (dt : ℝ) (h : FlagsOK p) :
    FlagsOK (updateHookPhysics p dt) := by
  simp only [updateHookPhysics]
  split_ifs <;>
    simp only [FlagsOK, applyFishResistance_isCasting,
      applyFishResistance_isReeling, breakLine_isCasting, breakLine_isReeling,
      updateLineTension_isCasting, updateLineTension_isReeling,
      updateLineLength_isCasting, updateLineLength_isReeling] at h ⊢ <;>
    first
      | exact h
      | simp

theorem updateReeling_FlagsOK (p : Player) (dt : ℝ) (h : FlagsOK p) :
    FlagsOK (updateReeling p dt) := by
  simp only [updateReeling]
  split_ifs <;>
    first
      | exact h
      | simp [FlagsOK, completeReeling_isCasting, completeReeling_isReeling]

theorem processPowerUp_isCasting (p : Player) (pu : ActivePowerUp) (now : ℝ) :
    (processPowerUp p pu now).1.isCasting = p.isCasting := by
  simp only [processPowerUp]
  split_ifs <;> rfl

theorem processPowerUp_isReeling (p : Player) (pu : ActivePowerUp) (now : ℝ) :
    (processPowerUp p pu now).1.isReeling = p.isReeling := by
  simp only [processPowerUp]
  split_ifs <;> rfl

theorem updatePowerUpsLoop_isCasting (l : List ActivePowerUp) (p : Player)
    (now : ℝ) : (updatePowerUpsLoop p l now).1.isCasting = p.isCasting := by
  induction l generalizing p with
  | nil => rfl
  | cons pu rest ih =>
      simp only [updatePowerUpsLoop]
      rw [ih, processPowerUp_isCasting]

theorem updatePowerUpsLoop_isReeling (l : List ActivePowerUp) (p : Player)
    (now : ℝ) : (updatePowerUpsLoop p l now).1.isReeling = p.isReeling := by
  induction l generalizing p with
  | nil => rfl
  | cons pu rest ih =>
      simp only [updatePowerUpsLoop]
      rw [ih, processPowerUp_isReeling]

theorem updatePowerUps_isCasting (p : Player) (now : ℝ) :
    (updatePowerUps p now).isCasting = p.isCasting := by
  simp only [updatePowerUps]
  exact updatePowerUpsLoop_isCasting _ _ _

theorem updatePowerUps_isReeling (p : Player) (now : ℝ) :
    (updatePowerUps p now).isReeling = p.isReeling := by
  simp only [updatePowerUps]
  exact updatePowerUpsLoop_isReeling _ _ _

theorem update_FlagsOK (p : Player) (dt now : ℝ) (h : FlagsOK p) :
    FlagsOK (update p dt now) := by
  simp only [update]
  split_ifs
  · exact h
  · simp only [FlagsOK, updatePowerUps_isCasting, updatePowerUps_isReeling]
    have h1 : FlagsOK { p with lastUpdateTime := dt } := h
    exact updateReeling_FlagsOK _ _ (updateHookPhysics_FlagsOK _ _ h1)

theorem cast_FlagsOK (p : Player) (power angle u : ℝ) (h : FlagsOK p) :
    FlagsOK (cast p power angle u) := by
  simp only [cast]
  split_ifs with hg hw
  · exact h
  · simp only [Bool.or_eq_true, not_or, Bool.not_eq_true] at hg
    simp [FlagsOK, hg.2]
  · simp only [Bool.or_eq_true, not_or, Bool.not_eq_true] at hg
    simp [FlagsOK, hg.2]

theorem handleTouchCast_FlagsOK (p : Player) (s e : Point) (u : ℝ)
    (h : FlagsOK p) : FlagsOK (handleTouchCast p s e u) := by
  simp only [handleTouchCast]
  split_ifs with hg
  · exact h
  · exact cast_FlagsOK _ _ _ _ h

theorem startReeling_FlagsOK (p : Player) (h : FlagsOK p) :
    FlagsOK (startReeling p) := by
  simp only [startReeling]
  split_ifs with hg
  · exact h
  · simp [FlagsOK]

theorem stopReeling_FlagsOK (p : Player) (h : FlagsOK p) :
    FlagsOK (stopReeling p) := by
  simp only [stopReeling]
  split_ifs with hg
  · exact h
  · simp [FlagsOK]

theorem catchFish_FlagsOK (p : Player) (fish : Fish) (u : ℝ) (h : FlagsOK p) :
    FlagsOK (catchFish p fish u) := by
  simp only [catchFish]
  split_ifs <;> exact h

theorem handleFishEscape_FlagsOK (p : Player) (fish : Fish) (chance u : ℝ)
    (h : FlagsOK p) : FlagsOK (handleFishEscape p fish chance u) := by
  simp only [handleFishEscape]
  split_ifs <;> exact h

theorem applyEffectWrites_isCasting (p : Player) (eff : PowerUpEffect) :
    (applyEffectWrites p eff).isCasting = p.isCasting := by
  unfold applyEffectWrites
  cases eff.castingPower <;> cases eff.reelingSpeed <;>
    cases eff.maxLineLength <;> rfl

theorem applyEffectWrites_isReeling (p : Player) (eff : PowerUpEffect) :
    (applyEffectWrites p eff).isReeling = p.isReeling := by
  unfold applyEffectWrites
  cases eff.castingPower <;> cases eff.reelingSpeed <;>
    cases eff.maxLineLength <;> rfl

theorem applyPowerUp_FlagsOK (p : Player) (pu : PowerUp) (now : ℝ)
    (h : FlagsOK p) : FlagsOK (applyPowerUp p pu now) := by
  have hA : FlagsOK (applyEffectWrites p pu.effect) := by
    unfold FlagsOK
    rw [applyEffectWrites_isCasting, applyEffectWrites_isReeling]
    exact h
  simp only [applyPowerUp]
  split_ifs
  · exact h
  · exact hA
  · exact hA

theorem reset_FlagsOK (p : Player) : FlagsOK (reset p) := by
  simp [FlagsOK, reset, resetHook]

theorem destroy_FlagsOK (p : Player) (h : FlagsOK p) :
    FlagsOK (destroy p) := h

theorem applyEnvironmentEffects_isCasting (p : Player) :
    (applyEnvironmentEffects p).isCasting = p.isCasting := by
  unfold applyEnvironmentEffects
  split <;> rfl

theorem applyEnvironmentEffects_isReeling (p : Player) :
    (applyEnvironmentEffects p).isReeling = p.isReeling := by
  unfold applyEnvironmentEffects
  split <;> rfl

theorem init_FlagsOK (o : PlayerOptions) : FlagsOK (init o) := by
  simp only [FlagsOK, init, applyEnvironmentEffects_isCasting,
    applyEnvironmentEffects_isReeling]
  simp

theorem updateLineLength_lineBroken (p : Player) :
    (updateLineLength p).lineBroken = p.lineBroken := rfl

theorem updateLineLength_lineLength (p : Player) :
    (updateLineLength p).lineLength
      = MathUtils.distance (some ⟨p.x, p.y⟩) (some ⟨p.hookX, p.hookY⟩) := rfl

theorem updateLineLength_maxLineLength (p : Player) :
    (updateLineLength p).maxLineLength = p.maxLineLength := rfl

theorem updateLineTension_lineBroken (p : Player) :
    (updateLineTension p).lineBroken = p.lineBroken := by
  simp only [updateLineTension]
  split <;> rfl

theorem updateLineTension_lineLength (p : Player) :
    (updateLineTension p).lineLength = p.lineLength := by
  simp only [updateLineTension]
  split <;> rfl

theorem updateLineTension_maxLineLength (p : Player) :
    (updateLineTension p).maxLineLength = p.maxLineLength := by
  simp only [updateLineTension]
  split <;> rfl

theorem applyFishResistance_lineBroken (p : Player) :
    (applyFishResistance p).lineBroken = p.lineBroken := rfl

theorem processPowerUp_lineBroken (p : Player) (pu : ActivePowerUp)
    (now : ℝ) : (processPowerUp p pu now).1.lineBroken = p.lineBroken := by
  simp only [processPowerUp]
  split_ifs <;> rfl

theorem updatePowerUpsLoop_lineBroken (l : List ActivePowerUp) (p : Player)
    (now : ℝ) : (updatePowerUpsLoop p l now).1.lineBroken = p.lineBroken := by
  induction l generalizing p with
  | nil => rfl
  | cons pu rest ih =>
      simp only [updatePowerUpsLoop]
      rw [ih, processPowerUp_lineBroken]

theorem updatePowerUps_lineBroken (p : Player) (now : ℝ) :
    (updatePowerUps p now).lineBroken = p.lineBroken := by
  simp only [updatePowerUps]
  exact updatePowerUpsLoop_lineBroken _ _ _

theorem updateReeling_not_reeling (p : Player) (dt : ℝ)
    (h : p.isReeling = false) : updateReeling p dt = p := by
  simp only [updateReeling]
  rw [if_pos]
  rw [h]
  rfl

/-- When the recomputed line length does not exceed the maximum,
`_updateHookPhysics` leaves `lineBroken`, `isCasting` and `isReeling`
unchanged (it never calls `_breakLine`). -/
theorem updateHookPhysics_no_break (p : Player) (dt : ℝ)
    (hnb : ¬ (p.maxLineLength < newLineLength p dt)) :
    (updateHookPhysics p dt).lineBroken = p.lineBroken ∧
    (updateHookPhysics p dt).isCasting = p.isCasting ∧
    (updateHookPhysics p dt).isReeling = p.isReeling := by
  simp only [updateHookPhysics]
  by_cases hrun : (!p.isCasting && !p.isReeling) = true
  · rw [if_pos hrun]
    exact ⟨rfl, rfl, rfl⟩
  · rw [if_neg hrun]
    split_ifs with h1 h2 <;>
      first
        | exact absurd
            (by rw [updateLineTension_maxLineLength,
                updateLineTension_lineLength, updateLineLength_maxLineLength,
                updateLineLength_lineLength] at h1; exact h1) hnb
        | exact ⟨by rw [applyFishResistance_lineBroken,
              updateLineTension_lineBroken, updateLineLength_lineBroken],
            by rw [applyFishResistance_isCasting, updateLineTension_isCasting,
              updateLineLength_isCasting],
            by rw [applyFishResistance_isReeling, updateLineTension_isReeling,
              updateLineLength_isReeling]⟩
        | exact ⟨by rw [updateLineTension_lineBroken,
              updateLineLength_lineBroken],
            by rw [updateLineTension_isCasting, updateLineLength_isCasting],
            by rw [updateLineTension_isReeling, updateLineLength_isReeling]⟩

theorem step_FlagsOK {p q : Player} (hstep : Step p q) (h : FlagsOK p) :
    FlagsOK q := by
  cases hstep with
  | cast power angle u => exact cast_FlagsOK _ power angle u h
  | handleTouchCast s e u => exact handleTouchCast_FlagsOK _ s e u h
  | startReeling => exact startReeling_FlagsOK _ h
  | stopReeling => exact stopReeling_FlagsOK _ h
  | handleTouchReel => exact startReeling_FlagsOK _ h
  | update dt now => exact update_FlagsOK _ dt now h
  | catchFish fish u => exact catchFish_FlagsOK _ fish u h
  | handleFishEscape fish chance u =>
      exact handleFishEscape_FlagsOK _ fish chance u h
  | applyPowerUp pu now => exact applyPowerUp_FlagsOK _ pu now h
  | reset => exact reset_FlagsOK _
  | destroy => exact destroy_FlagsOK _ h

end Player

/-- Claim C2: for every Player instance and every state reachable through
its public operations (cast, handleTouchCast, startReeling, stopReeling,
handleTouchReel, update, catchFish, handleFishEscape, applyPowerUp, reset,
destroy), the flags `isCasting` and `isReeling` are never simultaneously
true. -/
theorem C2_casting_reeling_exclusive (o : PlayerOptions) (p : Player)
    (h : Player.Reachable o p) :
    ¬(p.isCasting = true ∧ p.isReeling = true) := by
  unfold Player.Reachable at h
  induction h with
  | refl => exact Player.init_FlagsOK o
  | tail _ hstep ih => exact Player.step_FlagsOK hstep ih

/-- Witness for `C2_casting_reeling_exclusive`: the state reached from a
default Player by `cast(5, 0)` then `startReeling()` is reachable and
satisfies the invariant. -/
theorem C2_casting_reeling_exclusive_witness :
    Player.Reachable {}
      (Player.startReeling (Player.cast (Player.init {}) 5 0 0)) ∧
    ¬((Player.startReeling (Player.cast (Player.init {}) 5 0 0)).isCasting
        = true ∧
      (Player.startReeling (Player.cast (Player.init {}) 5 0 0)).isReeling
        = true) := by
  have hr : Player.Reachable {}
      (Player.startReeling (Player.cast (Player.init {}) 5 0 0)) :=
    Relation.ReflTransGen.tail
      (Relation.ReflTransGen.tail Relation.ReflTransGen.refl
        (Player.Step.cast _ 5 0 0))
      (Player.Step.startReeling _)
  exact ⟨hr, C2_casting_reeling_exclusive {} _ hr⟩

/-- A default Player after `cast(5, π/4)`, at `deltaTime = 16.67`: the
recomputed anchor↔hook distance is at most 6. Stated over any player whose
relevant fields have the concrete default-cast values. -/
theorem newLineLength_bound_after_cast (q : Player)
    (hx : q.x = 400) (hy : q.y = 50) (hhx : q.hookX = 400) (hhy : q.hookY = 50)
    (hvx : q.hookVelocity.x = 5 * (Real.sqrt 2 / 2))
    (hvy : q.hookVelocity.y = 5 * (Real.sqrt 2 / 2))
    (hg : q.gravity = 0.3) (hwl : q.waterLevel = 200)
    (hair : q.airResistance = 0.98)
    (hwind : q.weatherEffects.windForce = 0) :
    Player.newLineLength q (1667 / 100) ≤ 6 := by
  have hs0 : (0:ℝ) ≤ Real.sqrt 2 := Real.sqrt_nonneg 2
  have hs2 : Real.sqrt 2 ^ 2 = 2 := Real.sq_sqrt (by norm_num)
  have hs15 : Real.sqrt 2 ≤ 1.5 := by
    nlinarith [sq_nonneg (Real.sqrt 2 - 1.5)]
  simp only [Player.newLineLength, Player.newHookVelocity, hx, hy, hhx, hhy,
    hvx, hvy, hg, hwl, hair, hwind]
  rw [if_pos (show (50:ℝ) < 200 by norm_num)]
  rw [if_neg (show ¬((0:ℝ) < 0 ∧ (50:ℝ) < 200) from fun hc =>
    lt_irrefl 0 hc.1)]
  simp only [MathUtils.distance]
  have h36 : (400 + 5 * (Real.sqrt 2 / 2) * 0.98 * (1667 / 100 / 1000) * 60
        - 400) * (400 + 5 * (Real.sqrt 2 / 2) * 0.98 * (1667 / 100 / 1000)
        * 60 - 400)
      + (50 + (5 * (Real.sqrt 2 / 2) + 0.3 * (1667 / 100 / 1000) * 60) * 0.98
        * (1667 / 100 / 1000) * 60 - 50)
      * (50 + (5 * (Real.sqrt 2 / 2) + 0.3 * (1667 / 100 / 1000) * 60) * 0.98
        * (1667 / 100 / 1000) * 60 - 50) ≤ (36:ℝ) := by
    nlinarith [hs0, hs15, hs2]
  calc Real.sqrt _ ≤ Real.sqrt 36 := Real.sqrt_le_sqrt h36
    _ = 6 := by
        rw [show (36:ℝ) = 6 ^ 2 by norm_num, Real.sqrt_sq (by norm_num)]

/-- `Player.update` leaves the break/casting/reeling flags unchanged when
the player is not reeling and the recomputed line length does not exceed
the maximum. -/
theorem update_flags_of_no_break (q : Player) (dt now : ℝ)
    (hd : q.destroyed = false) (hr : q.isReeling = false)
    (hnb : ¬ (q.maxLineLength
        < Player.newLineLength { q with lastUpdateTime := dt } dt)) :
    (Player.update q dt now).lineBroken = q.lineBroken ∧
    (Player.update q dt now).isCasting = q.isCasting := by
  simp only [Player.update]
  rw [if_neg (by rw [hd]; simp)]
  have h1 := Player.updateHookPhysics_no_break
    { q with lastUpdateTime := dt } dt hnb
  have hreel : (Player.updateHookPhysics { q with lastUpdateTime := dt }
      dt).isReeling = false := h1.2.2.trans hr
  rw [Player.updatePowerUps_lineBroken, Player.updatePowerUps_isCasting,
    Player.updateReeling_not_reeling _ _ hreel]
  exact ⟨h1.1, h1.2.1⟩

/-- Claim C3 is contradicted by the code at the repository's own test input
(`part_006`, "should break line when exceeding maximum length"): a default
Player, after `cast(5, π/4)`, with `lineLength` set to
`maxLineLength + 50`, still has `lineBroken = false` and `isCasting = true`
after `update(16.67)`, because `_updateHookPhysics` recomputes `lineLength`
from the anchor↔hook distance (≈ 5.1) before the break check. -/
theorem C3_update_does_not_break_line :
    (Player.update Player.breakTestPlayer (1667 / 100) 0).lineBroken = false ∧
    (Player.update Player.breakTestPlayer (1667 / 100) 0).isCasting = true := by
  have hnorm : MathUtils.normalizeAngle (Real.pi / 4) = Real.pi / 4 :=
    MathUtils.normalizeAngle_eq_self _ (by positivity)
      (by linarith [Real.pi_pos])
  have hclamp : MathUtils.clamp 5 0 (Player.init {}).maxCastingPower = 5 := by
    show MathUtils.clamp 5 0 10 = 5
    unfold MathUtils.clamp
    rw [max_eq_left (by norm_num), min_eq_left (by norm_num)]
  have hcast : Player.cast (Player.init {}) 5 (Real.pi / 4) 0
      = { Player.init {} with
          castingPower := 5
          castingAngle := Real.pi / 4
          hookVelocity := ⟨5 * (Real.sqrt 2 / 2), 5 * (Real.sqrt 2 / 2)⟩
          isCasting := true
          lineBroken := false
          castCount := 1 } := by
    simp only [Player.cast]
    rw [if_neg (by decide)]
    rw [if_neg (show ¬((0:ℝ) < (Player.init {}).weatherEffects.windForce)
      from lt_irrefl 0)]
    rw [hclamp, hnorm, Real.cos_pi_div_four, Real.sin_pi_div_four]
    rfl
  have hBTP : Player.breakTestPlayer
      = { Player.init {} with
          castingPower := 5
          castingAngle := Real.pi / 4
          hookVelocity := ⟨5 * (Real.sqrt 2 / 2), 5 * (Real.sqrt 2 / 2)⟩
          isCasting := true
          lineBroken := false
          castCount := 1
          lineLength := 300 * 0.8 + 50 } := by
    unfold Player.breakTestPlayer
    rw [hcast]
    rfl
  rw [hBTP]
  have hnb : ¬ (({ Player.init {} with
      castingPower := 5
      castingAngle := Real.pi / 4
      hookVelocity := ⟨5 * (Real.sqrt 2 / 2), 5 * (Real.sqrt 2 / 2)⟩
      isCasting := true
      lineBroken := false
      castCount := 1
      lineLength := 300 * 0.8 + 50 } : Player).maxLineLength
      < Player.newLineLength { { Player.init {} with
      castingPower := 5
      castingAngle := Real.pi / 4
      hookVelocity := ⟨5 * (Real.sqrt 2 / 2), 5 * (Real.sqrt 2 / 2)⟩
      isCasting := true
      lineBroken := false
      castCount := 1
      lineLength := 300 * 0.8 + 50 } with
        lastUpdateTime := (1667:ℝ) / 100 } (1667 / 100)) := by
    rw [not_lt]
    refine le_trans
      (newLineLength_bound_after_cast _ rfl rfl rfl rfl rfl rfl rfl rfl rfl
        rfl) ?_
    show (6:ℝ) ≤ 300 * 0.8
    norm_num
  exact ⟨(update_flags_of_no_break _ _ 0 rfl rfl hnb).1,
    (update_flags_of_no_break _ _ 0 rfl rfl hnb).2⟩

/-- Claim C1, as stated, is false: the score invariant fails for small
constructor dimensions. A fish constructed with `width = 1, height = 1`
(default fishType `common`, behavior `normal`) has
`scoreValue = Math.round(10 * 1 * (2/64)) = 0` and `getScore() = 0`,
not strictly positive. -/
theorem C1_counterexample :
    (Fish.init { width := some 1, height := some 1 } 0 0 0).scoreValue = 0 ∧
    (Fish.init { width := some 1, height := some 1 } 0 0 0).getScore = 0 := by
  have hsv : (Fish.init { width := some 1, height := some 1 } 0 0 0).scoreValue
      = 0 := by
    simp only [Fish.init, Fish.initializeMovement_scoreValue]
    norm_num [jsOr, jsOrStr, Fish.calculateBaseScore, Fish.getRarityValue,
      jsRound]
  refine ⟨hsv, ?_⟩
  have hb : (Fish.init { width := some 1, height := some 1 } 0 0 0).behavior
      = "normal" := by
    simp only [Fish.init, Fish.initializeMovement_behavior]
    norm_num [jsOrStr]
  have hw : (Fish.init { width := some 1, height := some 1 } 0 0 0).width
      = 1 := by
    simp only [Fish.init, Fish.initializeMovement_width]
    norm_num [jsOr]
  have hh : (Fish.init { width := some 1, height := some 1 } 0 0 0).height
      = 1 := by
    simp only [Fish.init, Fish.initializeMovement_height]
    norm_num [jsOr]
  simp only [Fish.getScore, hb, hw, hh, hsv]
  norm_num [jsRound]

/-- Claim C1 (amended): for every Fish whose constructor dimensions satisfy
`width + height ≥ 64` (in particular the default 32×32 fish), and for every
fishType and behavior string — width, height and scoreValue are only ever
written by the constructor, and every behavior multiplier is ≥ 1, so this
covers every reachable state — both the derived `scoreValue` attribute and
`getScore()` are strictly positive. -/
theorem C1_getScore_pos (f : Fish) (hwh : 64 ≤ f.width + f.height)
    (hsv : f.scoreValue = Fish.calculateBaseScore f.width f.height f.fishType) :
    0 < f.scoreValue ∧ 0 < f.getScore := by
  have hr := Fish.one_le_getRarityValue f.fishType
  have hsm : (1:ℝ) ≤ (f.width + f.height) / 64 := by
    rw [le_div_iff₀ (by norm_num : (0:ℝ) < 64)]
    linarith
  have hsv10 : (10:ℤ) ≤ f.scoreValue := by
    rw [hsv]
    unfold Fish.calculateBaseScore jsRound
    rw [Int.le_floor]
    push_cast
    nlinarith [hr, hsm]
  have hsvR : (10:ℝ) ≤ (f.scoreValue : ℝ) := by exact_mod_cast hsv10
  have hprod : (10:ℝ) ≤ (f.scoreValue : ℝ) * ((f.width + f.height) / 64) := by
    nlinarith [hsvR, hsm]
  refine ⟨by omega, ?_⟩
  simp only [Fish.getScore]
  have hpos : ∀ k : ℝ, 1 ≤ k →
      0 < jsRound ((f.scoreValue : ℝ) * (1 * ((f.width + f.height) / 64) * k)) := by
    intro k hk
    unfold jsRound
    have : (1:ℤ) ≤ ⌊(f.scoreValue : ℝ) * (1 * ((f.width + f.height) / 64) * k)
        + 1 / 2⌋ := by
      rw [Int.le_floor]
      push_cast
      nlinarith [hprod, hk, hsm, hsvR]
    omega
  split
  · exact hpos 1.5 (by norm_num)
  · exact hpos 1.3 (by norm_num)
  · have h1 : (f.scoreValue : ℝ) * (1 * ((f.width + f.height) / 64))
        = (f.scoreValue : ℝ) * (1 * ((f.width + f.height) / 64) * 1) := by ring
    rw [h1]
    exact hpos 1 le_rfl

/-- Witness for `C1_getScore_pos`: the default-constructed 32×32 common fish
has a strictly positive scoreValue and getScore. -/
theorem C1_getScore_pos_witness :
    ((64:ℝ) ≤ (Fish.init {} 0 0 0).width + (Fish.init {} 0 0 0).height) ∧
    ((Fish.init {} 0 0 0).scoreValue
      = Fish.calculateBaseScore (Fish.init {} 0 0 0).width
          (Fish.init {} 0 0 0).height (Fish.init {} 0 0 0).fishType) ∧
    (0 < (Fish.init {} 0 0 0).scoreValue ∧ 0 < (Fish.init {} 0 0 0).getScore) := by
  have hw : (Fish.init {} 0 0 0).width = 32 := by
    simp only [Fish.init, Fish.initializeMovement_width]
    norm_num [jsOr]
  have hh : (Fish.init {} 0 0 0).height = 32 := by
    simp only [Fish.init, Fish.initializeMovement_height]
    norm_num [jsOr]
  have hwh : (64:ℝ) ≤ (Fish.init {} 0 0 0).width + (Fish.init {} 0 0 0).height := by
    rw [hw, hh]
    norm_num
  have hsv : (Fish.init {} 0 0 0).scoreValue
      = Fish.calculateBaseScore (Fish.init {} 0 0 0).width
          (Fish.init {} 0 0 0).height (Fish.init {} 0 0 0).fishType := by
    have hft : (Fish.init {} 0 0 0).fishType = "common" := by
      simp only [Fish.init, Fish.initializeMovement_fishType]
      norm_num [jsOrStr]
    have : (Fish.init {} 0 0 0).scoreValue
        = Fish.calculateBaseScore 32 32 "common" := by
      simp only [Fish.init, Fish.initializeMovement_scoreValue]
      norm_num [jsOr, jsOrStr]
    rw [this, hw, hh, hft]
  exact ⟨hwh, hsv, C1_getScore_pos _ hwh hsv⟩

/-- Claim C7: for every (finite) real input angle, including arbitrarily
large positive or negative multiples of π, `normalizeAngle` terminates — it
is a total function, its two source loops proved terminating by well-founded
recursion — and its result lies in `[0, 2π)`. -/
theorem C7_normalizeAngle_range (angle : ℝ) :
    0 ≤ MathUtils.normalizeAngle angle ∧
    MathUtils.normalizeAngle angle < 2 * Real.pi :=
  ⟨MathUtils.angleLoopDown_nonneg _ (MathUtils.angleLoopUp_nonneg angle),
    MathUtils.angleLoopDown_lt _⟩

namespace TouchController

theorem handleGameTap_eq (tc : TouchController) (position : Point) :
    handleGameTap tc position = tc := by
  simp only [handleGameTap]
  split <;> rfl

end TouchController

/-- Claim C8, as stated, is false: with a casting player in fishing mode and
a tap recognized at (100, 500) — a point inside the reeling zone of a
375×667 canvas — the gesture recognizer leaves the player unchanged
(`isReeling` stays false): the tap-to-reel mapping of `_handleGameTap` is
commented out in the source (`TEMP DISABLE`), so `handleTouchReel` /
`startReeling` is never invoked. -/
theorem C8_counterexample :
    TouchController.isInReelingZone tapTestController 100 500 ∧
    tapTestController.player = some tapTestPlayer ∧
    tapTestPlayer.isCasting = true ∧
    (TouchController.recognizeGesture tapTestController 100 500 100 500
      100 0 1000 0).player = some tapTestPlayer ∧
    tapTestPlayer.isReeling = false := by
  refine ⟨?_, rfl, rfl, ?_, rfl⟩
  · show (100:ℝ) ≥ 0 ∧ (100:ℝ) ≤ 0 + 375 ∧ (500:ℝ) ≥ 667 * 0.4 ∧
      (500:ℝ) ≤ 667 * 0.4 + 667 * 0.6
    norm_num
  · simp only [TouchController.recognizeGesture]
    rw [if_pos (show (0:ℝ) < tapTestController.gestureThreshold ∧
        (100:ℝ) < tapTestController.longPressDelay from
      ⟨by show (0:ℝ) < 10; norm_num, by show (100:ℝ) < 500; norm_num⟩)]
    simp only [TouchController.handleTap]
    rw [if_neg (show ¬(tapTestController.lastTapTime ≠ 0 ∧ _) from
      fun hc => hc.1 rfl)]
    rw [TouchController.handleGameTap_eq]
    rfl

/-- Claim C8 (amended): a tap — any contact with displacement below the
gesture threshold and duration below the long-press delay — fires no game
action at all: whatever the player state and wherever the tap lands
(including inside the reeling zone while casting), `_recognizeGesture`
leaves the player untouched, because the tap-to-reel mapping in
`_handleGameTap` is disabled in the source. -/
theorem C8_tap_does_not_start_reeling (tc : TouchController) (p : Player)
    (hp : tc.player = some p)
    (sx sy cx cy duration distance now u : ℝ)
    (hdist : distance < tc.gestureThreshold)
    (hdur : duration < tc.longPressDelay) :
    (TouchController.recognizeGesture tc sx sy cx cy duration distance now
      u).player = some p := by
  simp only [TouchController.recognizeGesture]
  rw [if_pos ⟨hdist, hdur⟩]
  simp only [TouchController.handleTap]
  split_ifs
  · exact hp
  · rw [TouchController.handleGameTap_eq]
    exact hp

/-- Witness for `C8_tap_does_not_start_reeling` at the concrete fishing
controller and a tap of distance 0, duration 100. -/
theorem C8_tap_does_not_start_reeling_witness :
    tapTestController.player = some tapTestPlayer ∧
    (0:ℝ) < tapTestController.gestureThreshold ∧
    (100:ℝ) < tapTestController.longPressDelay ∧
    (TouchController.recognizeGesture tapTestController 100 500 100 500
      100 0 1000 0).player = some tapTestPlayer :=
  ⟨rfl, by show (0:ℝ) < 10; norm_num, by show (100:ℝ) < 500; norm_num,
    C8_tap_does_not_start_reeling tapTestController tapTestPlayer rfl
      100 500 100 500 100 0 1000 0
      (by show (0:ℝ) < 10; norm_num) (by show (100:ℝ) < 500; norm_num)⟩

/-- Claim C9, as stated, is false: `TouchController.setGestureThreshold`
has no destroyed-guard and validates its argument, so calling it with `0`
after `destroy()` throws (`Error: Gesture threshold must be positive`,
modelled by `Except.error`) instead of being a silent no-op. -/
theorem C9_counterexample :
    TouchController.setGestureThreshold
      (TouchController.destroy tapTestController) 0
      = Except.error "Gesture threshold must be positive" := by
  simp only [TouchController.setGestureThreshold]
  rw [if_pos le_rfl]

/-- Claim C9 (amended): for Player, Fish, TouchController and Game,
`destroy()` is idempotent — a second `destroy()` does not throw and leaves
the component in the same inert state — and the destroyed-guarded public
methods (Player.cast, handleTouchCast, startReeling, stopReeling, update,
catchFish, applyPowerUp) are no-ops after destroy; but not every public
call is: `Fish.reset` sets `destroyed` back to `false` (re-activating the
pooled slot), and `TouchController.setGestureThreshold 0` still throws
after destroy. -/
theorem C9_destroy_idempotent :
    (∀ p : Player, (Player.destroy p).destroy = Player.destroy p) ∧
    (∀ f : Fish, (Fish.destroy f).destroy = Fish.destroy f) ∧
    (∀ tc : TouchController,
      (TouchController.destroy tc).destroy = TouchController.destroy tc) ∧
    (∀ g : Game, (Game.destroy g).destroy = Game.destroy g) ∧
    (∀ p : Player, ∀ power angle u : ℝ,
      (Player.destroy p).cast power angle u = Player.destroy p) ∧
    (∀ p : Player, ∀ s e : Point, ∀ u : ℝ,
      (Player.destroy p).handleTouchCast s e u = Player.destroy p) ∧
    (∀ p : Player, (Player.destroy p).startReeling = Player.destroy p) ∧
    (∀ p : Player, (Player.destroy p).stopReeling = Player.destroy p) ∧
    (∀ p : Player, ∀ dt now : ℝ,
      (Player.destroy p).update dt now = Player.destroy p) ∧
    (∀ p : Player, ∀ f : Fish, ∀ u : ℝ,
      (Player.destroy p).catchFish f u = Player.destroy p) ∧
    (∀ p : Player, ∀ pu : PowerUp, ∀ now : ℝ,
      (Player.destroy p).applyPowerUp pu now = Player.destroy p) ∧
    (∀ f : Fish, ((Fish.destroy f).reset).destroyed = false) ∧
    (∀ tc : TouchController,
      (TouchController.destroy tc).setGestureThreshold 0
        = Except.error "Gesture threshold must be positive") := by
  refine ⟨fun p => rfl, fun f => rfl, fun tc => rfl, fun g => rfl,
    fun p power angle u => rfl, fun p s e u => rfl, fun p => rfl,
    fun p => rfl, fun p dt now => rfl, fun p f u => rfl,
    fun p pu now => rfl, fun f => rfl, fun tc => ?_⟩
  simp only [TouchController.setGestureThreshold]
  rw [if_pos le_rfl]

namespace Game

theorem returnFishToPool_activeFish (g : Game) (fish : Fish) :
    (returnFishToPool g fish).activeFish = g.activeFish.erase fish := by
  simp only [returnFishToPool]
  split <;> rfl

theorem returnFishToPool_stats (g : Game) (fish : Fish) :
    (returnFishToPool g fish).stats = g.stats := by
  simp only [returnFishToPool]
  split <;> rfl

theorem updateScore_activeFish (g : Game) (points : ℤ) :
    (updateScore g points).activeFish = g.activeFish := rfl

theorem updateCombo_activeFish (g : Game) (now : ℝ) :
    (updateCombo g now).activeFish = g.activeFish := rfl

theorem updateScore_fishCaught (g : Game) (points : ℤ) :
    (updateScore g points).stats.fishCaught = g.stats.fishCaught := rfl

theorem updateCombo_stats (g : Game) (now : ℝ) :
    (updateCombo g now).stats = g.stats := rfl

theorem cleanupLoop_mem (n : ℕ) (g : Game) (f : Fish)
    (h : f ∈ (cleanupLoop g n).activeFish) : f ∈ g.activeFish := by
  induction n generalizing g with
  | zero => exact h
  | succ i ih =>
      simp only [cleanupLoop] at h
      cases hg : g.activeFish.get? i with
      | none =>
          rw [hg] at h
          exact ih g h
      | some fish =>
          rw [hg] at h
          have h2 : f ∈ (if fish.isActive = false ∨ fish.x < -100 ∨
              g.width + 100 < fish.x then
                (g.returnFishToPool fish).cleanupLoop i
              else g.cleanupLoop i).activeFish := h
          split_ifs at h2 with hc
          · have h3 := ih _ h2
            rw [returnFishToPool_activeFish] at h3
            exact List.mem_of_mem_erase h3
          · exact ih g h2

theorem cleanup_removes_last_inactive (g : Game) (l : List Fish) (f : Fish)
    (hl : g.activeFish = l ++ [f]) (hact : f.isActive = false)
    (hf : f ∉ l) : f ∉ (cleanupFish g).activeFish := by
  intro hmem
  have hlen2 : g.activeFish.length = l.length + 1 := by
    rw [hl]
    simp
  have hstep : cleanupLoop g (l.length + 1)
      = cleanupLoop (returnFishToPool g f) l.length := by
    simp only [cleanupLoop]
    rw [hl, List.get?_concat_length]
    show (if f.isActive = false ∨ f.x < -100 ∨ g.width + 100 < f.x then
        cleanupLoop (returnFishToPool g f) l.length
      else cleanupLoop g l.length) = _
    rw [if_pos (Or.inl hact)]
  unfold cleanupFish at hmem
  rw [hlen2, hstep] at hmem
  have h2 := cleanupLoop_mem _ _ _ hmem
  rw [returnFishToPool_activeFish, hl] at h2
  rw [List.erase_append_right _ hf, List.erase_cons_head] at h2
  simp only [List.append_nil] at h2
  exact hf h2

end Game

/-- Claim C4, as stated, is false: at the moment of catching, the fish does
not remain in the orchestrator's `activeFish` list. Concretely, with one
active fish, the `fishCaught` event handler (`Game._handleFishCaught`,
wired to `player.on('fishCaught', ...)` and therefore run synchronously
inside `Player.catchFish`) immediately empties `activeFish` by calling
`_returnFishToPool(fish)`. -/
theorem C4_counterexample :
    sampleFish ∈ catchTestGame.activeFish ∧
    (Game.handleFishCaught catchTestGame sampleFish 10 0).activeFish = [] := by
  constructor
  · show sampleFish ∈ [sampleFish]
    exact List.mem_singleton_self _
  · simp only [Game.handleFishCaught, Game.updateScore, Game.updateCombo]
    rw [Game.returnFishToPool_activeFish]
    show ([sampleFish].erase sampleFish) = []
    rw [List.erase_cons_head]

/-- Claim C4 (amended): on a successful catch the score and fish count
update immediately, and the fish object is also *immediately* removed from
play: `Game._handleFishCaught` increments `stats.fishCaught` and removes
the caught fish from `activeFish` (returning it to the pool) at the moment
of catching, not deferred to reel completion or escape. -/
theorem C4_fish_removed_at_catch (g : Game) (fish : Fish) (score : ℤ)
    (now : ℝ) (hcount : g.activeFish.count fish ≤ 1) :
    fish ∉ (Game.handleFishCaught g fish score now).activeFish ∧
    (Game.handleFishCaught g fish score now).stats.fishCaught
      = g.stats.fishCaught + 1 := by
  constructor
  · simp only [Game.handleFishCaught]
    rw [Game.returnFishToPool_activeFish, Game.updateCombo_activeFish,
      Game.updateScore_activeFish]
    intro hmem
    have h1 : (g.activeFish.erase fish).count fish
        = g.activeFish.count fish - 1 := List.count_erase_self _ _
    have h2 : 0 < (g.activeFish.erase fish).count fish :=
      List.count_pos_iff_mem.mpr hmem
    omega
  · simp only [Game.handleFishCaught]
    rw [Game.returnFishToPool_stats, Game.updateCombo_stats,
      Game.updateScore_fishCaught]

/-- Witness for `C4_fish_removed_at_catch` at the concrete one-fish game. -/
theorem C4_fish_removed_at_catch_witness :
    catchTestGame.activeFish.count sampleFish ≤ 1 ∧
    (sampleFish ∉
        (Game.handleFishCaught catchTestGame sampleFish 10 0).activeFish ∧
      (Game.handleFishCaught catchTestGame sampleFish 10 0).stats.fishCaught
        = catchTestGame.stats.fishCaught + 1) := by
  have hc : catchTestGame.activeFish.count sampleFish ≤ 1 := by
    show ([sampleFish].count sampleFish) ≤ 1
    rw [show ([sampleFish] : List Fish) = sampleFish :: [] from rfl,
      List.count_cons_self, List.count_nil]
  exact ⟨hc, C4_fish_removed_at_catch catchTestGame sampleFish 10 0 hc⟩

/-- Claim C10: `Game._spawnFish` configures the pooled fish, sets
`fish.isActive = true`, and then calls `fish.reset()`, which sets
`isActive` back to `false` and zeroes the velocity; so immediately after
the fish is appended to `activeFish` its `isActive` flag is false and its
velocity is `{x: 0, y: 0}`, and the next `_cleanupFish` pass returns the
newly spawned fish to the pool (it is no longer in `activeFish`). -/
theorem C10_spawned_fish_inactive (g : Game) (fish : Fish)
    (rest : List Fish) (uSide uY : ℝ)
    (hpool : g.fishPool = rest ++ [fish])
    (hlen : g.activeFish.length < g.maxFish) :
    ∃ f : Fish,
      (Game.spawnFish g uSide uY).activeFish = g.activeFish ++ [f] ∧
      f.isActive = false ∧
      f.velocity = ⟨0, 0⟩ ∧
      (f ∉ g.activeFish →
        f ∉ (Game.cleanupFish (Game.spawnFish g uSide uY)).activeFish) := by
  have hspawn : Game.spawnFish g uSide uY = { g with
      fishPool := (rest ++ [fish]).dropLast
      activeFish := g.activeFish ++
        [Fish.reset { fish.setPosition
            (if uSide < 0.5 then (-50:ℝ) else g.width + 50)
            (MathUtils.randomRange (g.height * 0.3) (g.height - 50) uY)
          with isActive := true }] } := by
    simp only [Game.spawnFish]
    rw [if_neg (not_le.mpr hlen), hpool, List.getLast?_concat]
  refine ⟨_, by rw [hspawn], rfl, rfl, ?_⟩
  intro hnotin
  refine Game.cleanup_removes_last_inactive _ g.activeFish _ ?_ rfl hnotin
  rw [hspawn]

/-- Witness for `C10_spawned_fish_inactive`: spawning into the concrete
empty playfield from a one-fish pool. -/
theorem C10_spawned_fish_inactive_witness :
    spawnTestGame.fishPool = [] ++ [sampleFish] ∧
    spawnTestGame.activeFish.length < spawnTestGame.maxFish ∧
    (∃ f : Fish,
      (Game.spawnFish spawnTestGame 0.3 0.5).activeFish
        = spawnTestGame.activeFish ++ [f] ∧
      f.isActive = false ∧
      f.velocity = ⟨0, 0⟩ ∧
      (f ∉ spawnTestGame.activeFish →
        f ∉ (Game.cleanupFish
          (Game.spawnFish spawnTestGame 0.3 0.5)).activeFish)) := by
  have hpool : spawnTestGame.fishPool = [] ++ [sampleFish] := rfl
  have hlen : spawnTestGame.activeFish.length < spawnTestGame.maxFish := by
    show 0 < 10
    norm_num
  exact ⟨hpool, hlen,
    C10_spawned_fish_inactive spawnTestGame sampleFish [] 0.3 0.5 hpool hlen⟩

end FishGame
